import Mathlib

/-!
# cloudflare-llm-chat: the edge handler and the per-session chat state manager

A shallow embedding of `src/index.js`.  The file has two handlers:

* the default export `fetch(request, env, ctx)` (here `Default.fetch`), which serves the
  static page, validates `POST /api/chat` bodies and forwards them to a Durable Object;
* `ChatSession.fetch(request)`, one Durable Object per session, which loads the stored
  transcript, appends the user turn, builds the prompt from the last `MAX_TURNS` turns,
  calls the generation backend, normalises its result, appends the assistant turn and
  persists the whole transcript.

JavaScript values are embedded as the data type `JSVal`.  The platform pieces the source
calls (`JSON.stringify`, `String.prototype.trim`, property reads, `||`, `+` on strings,
`Array.prototype.slice`) are given as executable functions on that type.  Asynchronous
calls are embedded in direct style: a handler is a function from its inputs and the state
it can see to an outcome holding the result (a response or the error thrown), the state
afterwards and the trace of external calls it made, in order.
-/

namespace CloudflareLlmChat

/-! ## JavaScript values -/

/-- JavaScript data values.  `num` carries integer-valued numbers only (the safe-integer
range; fractions, `NaN`, `-0` and the infinities are outside the model).  `obj` lists the
own enumerable properties of a plain object in enumeration order, keys distinct. -/
inductive JSVal where
  | undefined
  | null
  | bool (b : Bool)
  | num (n : Int)
  | str (s : String)
  | arr (xs : List JSVal)
  | obj (fields : List (String × JSVal))

/-- Errors a handler can end with (a thrown exception or a rejected promise). -/
inductive JSError where
  | typeError
  | syntaxError
  | rejected (reason : String)
  deriving DecidableEq, Repr

/-- ToBoolean, as used by `||` and `!`. -/
def truthy : JSVal → Bool
  | .undefined => false
  | .null => false
  | .bool b => b
  | .num n => n != 0
  | .str s => s != ""
  | .arr _ => true
  | .obj _ => true

/-- The operator `a || b`. -/
def JSVal.or (a b : JSVal) : JSVal :=
  if truthy a then a else b

/-- The test `typeof v === "string"`. -/
def isString : JSVal → Bool
  | .str _ => true
  | _ => false

/-- First value bound to `key` in a property list. -/
def lookupField (key : String) : List (String × JSVal) → Option JSVal
  | [] => none
  | (k, v) :: rest => if k = key then some v else lookupField key rest

/-- Property read `v.key`, for a key that no built-in prototype defines (the source reads
only `sessionId`, `message` and `response`).  Reading from `undefined` or `null` throws a
TypeError; a primitive or an array has no such property; a plain object yields the
property or `undefined`. -/
def getProp (v : JSVal) (key : String) : Except JSError JSVal :=
  match v with
  | .undefined => .error .typeError
  | .null => .error .typeError
  | .obj fields => .ok ((lookupField key fields).getD .undefined)
  | _ => .ok .undefined

/-- WhiteSpace and LineTerminator code points, the ones `String.prototype.trim` strips. -/
def isJSWhiteSpace (c : Char) : Bool :=
  let n := c.toNat
  n == 0x09 || n == 0x0A || n == 0x0B || n == 0x0C || n == 0x0D || n == 0x20 ||
  n == 0xA0 || n == 0x1680 || (0x2000 ≤ n && n ≤ 0x200A) || n == 0x2028 || n == 0x2029 ||
  n == 0x202F || n == 0x205F || n == 0x3000 || n == 0xFEFF

/-- The method `String.prototype.trim` on a string. -/
def trim (s : String) : String :=
  String.mk ((s.toList.dropWhile isJSWhiteSpace).reverse.dropWhile isJSWhiteSpace).reverse

/-- The call `v.trim()`: defined on strings, a TypeError on any other data value (the
property is then missing or not a function). -/
def callTrim : JSVal → Except JSError JSVal
  | .str s => .ok (.str (trim s))
  | _ => .error .typeError

mutual
/-- ToString, as applied by `+` to the right operand of a string concatenation. -/
def toStr : JSVal → String
  | .undefined => "undefined"
  | .null => "null"
  | .bool b => if b then "true" else "false"
  | .num n => toString n
  | .str s => s
  | .arr xs => ",".intercalate (toStrElems xs)
  | .obj _ => "[object Object]"
/-- The pieces `Array.prototype.join` puts between commas: empty for `undefined` and
`null`, ToString of the element otherwise. -/
def toStrElems : List JSVal → List String
  | [] => []
  | .undefined :: xs => "" :: toStrElems xs
  | .null :: xs => "" :: toStrElems xs
  | x :: xs => toStr x :: toStrElems xs
end

/-- Lower-case hexadecimal digit of a number below 16. -/
def hexDigit (n : Nat) : Char :=
  if n < 10 then Char.ofNat (48 + n) else Char.ofNat (87 + n)

/-- QuoteJSONString on one code point. -/
def quoteChar (c : Char) : String :=
  let n := c.toNat
  if n = 0x22 then "\\\""
  else if n = 0x5C then "\\\\"
  else if n = 0x08 then "\\b"
  else if n = 0x0C then "\\f"
  else if n = 0x0A then "\\n"
  else if n = 0x0D then "\\r"
  else if n = 0x09 then "\\t"
  else if n < 0x20 then "\\u00" ++ String.mk [hexDigit (n / 16), hexDigit (n % 16)]
  else String.singleton c

/-- QuoteJSONString: the JSON string literal for a string. -/
def quoteJSON (s : String) : String :=
  "\"" ++ String.join (s.toList.map quoteChar) ++ "\""

mutual
/-- SerializeJSONProperty without indentation: `none` stands for `undefined`. -/
def serialize : JSVal → Option String
  | .undefined => none
  | .null => some "null"
  | .bool b => some (if b then "true" else "false")
  | .num n => some (toString n)
  | .str s => some (quoteJSON s)
  | .arr xs => some ("[" ++ ",".intercalate (serializeElems xs) ++ "]")
  | .obj fields => some ("\x7b" ++ ",".intercalate (serializeFields fields) ++ "\x7d")
/-- Array elements: `undefined` is written `null`. -/
def serializeElems : List JSVal → List String
  | [] => []
  | x :: xs => (serialize x).getD "null" :: serializeElems xs
/-- Object members: a property whose value is `undefined` is left out. -/
def serializeFields : List (String × JSVal) → List String
  | [] => []
  | (k, v) :: rest =>
    match serialize v with
    | none => serializeFields rest
    | some s => (quoteJSON k ++ ":" ++ s) :: serializeFields rest
end

/-- The call `JSON.stringify(v)`: a string, or `undefined` when `v` is `undefined`. -/
def JSON.stringify (v : JSVal) : JSVal :=
  match serialize v with
  | some s => .str s
  | none => .undefined

/-- The call `xs.slice(start)` of `Array.prototype.slice` with one argument. -/
def slice {α : Type} (xs : List α) (start : Int) : List α :=
  let len : Int := xs.length
  let k : Int := if start < 0 then max (len + start) 0 else min start len
  xs.drop k.toNat


/-! ## The static page -/

/-- The constant `HTML`, the page served on the root path. -/
def HTML : String :=
  "\n".intercalate [
    "<!doctype html>",
    "<html lang=\"en\">",
    "<head>",
    "  <meta charset=\"utf-8\" />",
    "  <title>Cloudflare Edge Chat</title>",
    "  <meta name=\"viewport\" content=\"width=device-width, initial-scale=1\" />",
    "  <style>",
    "    * \x7b box-sizing: border-box; \x7d",
    "    body \x7b",
    "      margin: 0;",
    "      background: #020617;",
    "      color: #e5e7eb;",
    "      font-family: -apple-system, BlinkMacSystemFont, system-ui, sans-serif;",
    "      display: flex;",
    "      justify-content: center;",
    "    \x7d",
    "    .page \x7b",
    "      width: 100%;",
    "      max-width: 750px;",
    "      padding: 24px 16px 40px;",
    "    \x7d",
    "    h1 \x7b",
    "      font-size: 1.5rem;",
    "      margin: 0 0 4px;",
    "    \x7d",
    "    .subtitle \x7b",
    "      font-size: 0.9rem;",
    "      color: #9ca3af;",
    "      margin-bottom: 16px;",
    "    \x7d",
    "    .chat \x7b",
    "      height: 460px;",
    "      border-radius: 12px;",
    "      border: 1px solid #1f2937;",
    "      background: #020617;",
    "      padding: 12px;",
    "      overflow-y: auto;",
    "      margin-bottom: 10px;",
    "    \x7d",
    "    .msg \x7b",
    "      max-width: 80%;",
    "      margin-bottom: 8px;",
    "      padding: 8px 10px;",
    "      border-radius: 10px;",
    "      font-size: 0.9rem;",
    "      line-height: 1.35;",
    "      white-space: pre-wrap;",
    "    \x7d",
    "    .msg.user \x7b",
    "      margin-left: auto;",
    "      background: #1d4ed8;",
    "    \x7d",
    "    .msg.bot \x7b",
    "      margin-right: auto;",
    "      background: #020617;",
    "      border: 1px solid #1f2937;",
    "    \x7d",
    "    form \x7b",
    "      display: flex;",
    "      gap: 8px;",
    "      align-items: flex-end;",
    "    \x7d",
    "    textarea \x7b",
    "      flex: 1;",
    "      resize: none;",
    "      border-radius: 10px;",
    "      border: 1px solid #4b5563;",
    "      padding: 8px 10px;",
    "      font-size: 0.9rem;",
    "      background: #020617;",
    "      color: #e5e7eb;",
    "    \x7d",
    "    button \x7b",
    "      border: none;",
    "      border-radius: 10px;",
    "      padding: 8px 14px;",
    "      font-size: 0.9rem;",
    "      font-weight: 600;",
    "      background: #22c55e;",
    "      color: #022c22;",
    "      cursor: pointer;",
    "    \x7d",
    "    button:disabled \x7b",
    "      opacity: 0.6;",
    "      cursor: default;",
    "    \x7d",
    "    .note \x7b",
    "      margin-top: 6px;",
    "      font-size: 0.8rem;",
    "      color: #6b7280;",
    "    \x7d",
    "  </style>",
    "</head>",
    "<body>",
    "  <div class=\"page\">",
    "    <h1>Cloudflare Edge Chat</h1>",
    "    <div class=\"subtitle\">",
    "      Workers AI + Durable Objects. One session per browser, short memory on the edge.",
    "    </div>",
    "",
    "    <div id=\"chat\" class=\"chat\"></div>",
    "",
    "    <form id=\"form\">",
    "      <textarea id=\"input\" rows=\"2\" placeholder=\"Ask something...\"></textarea>",
    "      <button id=\"send\" type=\"submit\">Send</button>",
    "    </form>",
    "",
    "    <div class=\"note\">",
    "      This is meant as a small demo, not a full product. I mainly wanted to show stateful LLM calls on Cloudflare.",
    "    </div>",
    "  </div>",
    "",
    "  <script>",
    "    const chatEl = document.getElementById(\"chat\");",
    "    const form = document.getElementById(\"form\");",
    "    const input = document.getElementById(\"input\");",
    "    const sendBtn = document.getElementById(\"send\");",
    "",
    "    // one id per tab, good enough for this",
    "    const sessionId = crypto.randomUUID();",
    "",
    "    function addMessage(text, role) \x7b",
    "      const div = document.createElement(\"div\");",
    "      div.className = \"msg \" + role;",
    "      div.textContent = text;",
    "      chatEl.appendChild(div);",
    "      chatEl.scrollTop = chatEl.scrollHeight;",
    "    \x7d",
    "",
    "    form.addEventListener(\"submit\", async (e) => \x7b",
    "      e.preventDefault();",
    "      const text = input.value.trim();",
    "      if (!text) return;",
    "",
    "      addMessage(text, \"user\");",
    "      input.value = \"\";",
    "      sendBtn.disabled = true;",
    "",
    "      try \x7b",
    "        const res = await fetch(\"/api/chat\", \x7b",
    "          method: \"POST\",",
    "          headers: \x7b \"Content-Type\": \"application/json\" \x7d,",
    "          body: JSON.stringify(\x7b sessionId, message: text \x7d)",
    "        \x7d);",
    "",
    "        const data = await res.json();",
    "        if (data.reply) \x7b",
    "          addMessage(data.reply, \"bot\");",
    "        \x7d else if (data.error) \x7b",
    "          addMessage(\"error: \" + data.error, \"bot\");",
    "        \x7d",
    "      \x7d catch (err) \x7b",
    "        addMessage(\"request failed\", \"bot\");",
    "      \x7d finally \x7b",
    "        sendBtn.disabled = false;",
    "      \x7d",
    "    \x7d);",
    "  </script>",
    "</body>",
    "</html>"]

/-! ## Data model -/

/-- The two role tags the source writes into a turn. -/
inductive Role where
  | user
  | assistant
  deriving DecidableEq, Repr

/-- The string stored in the `role` property. -/
def Role.name : Role → String
  | .user => "user"
  | .assistant => "assistant"

/-- One entry of the transcript, the object `{ role, content }`. -/
structure Turn where
  role : Role
  content : JSVal

/-- The JavaScript object of a turn. -/
def Turn.toJS (t : Turn) : JSVal :=
  .obj [("role", .str t.role.name), ("content", t.content)]

/-- Durable Object storage of one session.  The source uses the single key `history`;
`none` is the absent key, for which `storage.get` resolves to `undefined`.  Every value
ever stored is an array of turns, the one written by `ChatSession.fetch`. -/
structure Storage where
  history : Option (List Turn)

/-- Argument of `env.AI.run(model, { prompt, max_tokens })`. -/
structure AiRequest where
  model : String
  prompt : String
  max_tokens : Nat
  deriving DecidableEq, Repr

/-- The generation backend `env.AI.run`: resolves to a value or rejects. -/
abbrev Backend := AiRequest → Except JSError JSVal

/-- External calls a handler makes, in the order it makes them. -/
inductive Event where
  | stubFetch (name : String)
  | storageGet (key : String)
  | aiRun (req : AiRequest)
  | storagePut (key : String) (value : List Turn)

/-- What the source passes to `new Response(body, init)`: the body, the status (200 when
the source gives none) and the headers of `init`. -/
structure Response where
  body : JSVal
  status : Nat
  headers : List (String × String)

/-- Outcome of one `ChatSession.fetch` call. -/
structure Outcome where
  result : Except JSError Response
  storage : Storage
  trace : List Event

/-! ## The per-session chat state manager -/

/-- The constant `MAX_TURNS`. -/
def MAX_TURNS : Nat := 10

/-- The constant `systemPrompt`. -/
def systemPrompt : String :=
  "You are a direct, technical assistant. " ++
  "Use the short chat history and answer clearly, no fluff."

/-- The method `String.prototype.toUpperCase` on ASCII text; the source applies it to the
role names only. -/
def toUpperCase (s : String) : String :=
  String.mk (s.toList.map Char.toUpper)

/-- The callback `m => m.role.toUpperCase() + ": " + m.content`. -/
def renderTurn (m : Turn) : String :=
  toUpperCase m.role.name ++ ": " ++ toStr m.content

/-- The prompt built from the windowed turns `recent`. -/
def buildPrompt (recent : List Turn) : String :=
  systemPrompt ++
  "\n\nConversation:\n" ++
  "\n".intercalate (recent.map renderTurn) ++
  "\nASSISTANT:"

/-- The expression `typeof result === "string" ? result : result.response ||
JSON.stringify(result)`. -/
def normalizeReply (result : JSVal) : Except JSError JSVal :=
  if isString result then .ok result
  else
    match getProp result "response" with
    | .error e => .error e
    | .ok response => .ok (response.or (JSON.stringify result))

/-- The destructuring `const { sessionId = "default", message } = await request.json()`
on the parsed body: the value bound to `message`. -/
def destructure (body : JSVal) : Except JSError JSVal :=
  match getProp body "sessionId" with
  | .error e => .error e
  | .ok _ => getProp body "message"

/-- The successful response of `ChatSession.fetch`. -/
def chatResponse (reply : JSVal) (history : List Turn) : Response :=
  { body := JSON.stringify
      (.obj [("reply", reply),
             ("history", .arr ((slice history (-(MAX_TURNS : Int))).map Turn.toJS))])
    status := 200
    headers := [("Content-Type", "application/json")] }

/-- The method `ChatSession.fetch(request)`, on the parsed JSON body of the request, the
storage of this Durable Object and the backend bound to `env.AI`.  `storage.get` hands
out a copy of the stored array, so the two `push` calls act on the local `history`
only. -/
def ChatSession.fetch (ai : Backend) (storage : Storage) (body : JSVal) : Outcome :=
  match destructure body with
  | .error e => { result := .error e, storage := storage, trace := [] }
  | .ok message =>
    let stored := storage.history
    let history := match stored with
      | some h => h
      | none => []
    let history := history ++ [{ role := .user, content := message }]
    let recent := slice history (-(MAX_TURNS : Int))
    let prompt := buildPrompt recent
    let req : AiRequest :=
      { model := "@cf/meta/llama-3.1-8b-instruct", prompt := prompt, max_tokens := 256 }
    match ai req with
    | .error e =>
      { result := .error e, storage := storage,
        trace := [.storageGet "history", .aiRun req] }
    | .ok result =>
      match normalizeReply result with
      | .error e =>
        { result := .error e, storage := storage,
          trace := [.storageGet "history", .aiRun req] }
      | .ok reply =>
        let history := history ++ [{ role := .assistant, content := reply }]
        { result := .ok (chatResponse reply history),
          storage := { history := some history },
          trace := [.storageGet "history", .aiRun req, .storagePut "history" history] }

/-! ## The edge handler -/

/-- An inbound request as the edge handler reads it: the method, the `pathname` of its
URL, and the result of `request.json()` (`none` when the body is not JSON). -/
structure Request where
  method : String
  pathname : String
  json : Option JSVal

/-- The Durable Object namespace `env.CHAT_SESSIONS`: the storage of the object of each
name.  `idFromName` is injective on names, so the name stands for the id. -/
abbrev Sessions := String → Storage

/-- The call `env.CHAT_SESSIONS.idFromName(sessionId)`; the binding converts its argument
to a string. -/
def idFromName (sessionId : JSVal) : String :=
  toStr sessionId

/-- The namespace after the object named `id` has written `storage`. -/
def Sessions.set (sessions : Sessions) (id : String) (storage : Storage) : Sessions :=
  fun k => if k = id then storage else sessions k

/-- Outcome of one call of the edge handler. -/
structure EdgeOutcome where
  result : Except JSError Response
  sessions : Sessions
  trace : List Event

/-- The method `fetch(request, env, ctx)` of the default export, with `env.AI` and
`env.CHAT_SESSIONS` as arguments.  The body the Durable Object parses is the JSON text of
`{ sessionId, message }`, read back as that object. -/
def Default.fetch (ai : Backend) (sessions : Sessions) (request : Request) : EdgeOutcome :=
  if request.pathname = "/" then
    { result := .ok { body := .str HTML, status := 200,
                      headers := [("Content-Type", "text/html;charset=UTF-8")] },
      sessions := sessions, trace := [] }
  else if request.pathname = "/api/chat" ∧ request.method = "POST" then
    match request.json with
    | none => { result := .error .syntaxError, sessions := sessions, trace := [] }
    | some body =>
      match getProp body "sessionId" with
      | .error e => { result := .error e, sessions := sessions, trace := [] }
      | .ok rawId =>
        let sessionId := rawId.or (.str "default")
        match getProp body "message" with
        | .error e => { result := .error e, sessions := sessions, trace := [] }
        | .ok rawMessage =>
          match callTrim (rawMessage.or (.str "")) with
          | .error e => { result := .error e, sessions := sessions, trace := [] }
          | .ok message =>
            if !truthy message then
              { result := .ok { body := JSON.stringify (.obj [("error", .str "empty message")]),
                                status := 400,
                                headers := [("Content-Type", "application/json")] },
                sessions := sessions, trace := [] }
            else
              let id := idFromName sessionId
              let out := ChatSession.fetch ai (sessions id)
                (.obj [("sessionId", sessionId), ("message", message)])
              { result := out.result,
                sessions := sessions.set id out.storage,
                trace := .stubFetch id :: out.trace }
  else
    { result := .ok { body := .str "not found", status := 404, headers := [] },
      sessions := sessions, trace := [] }

/-! ## Observations on outcomes, and the wording of the specification -/

/-- Prompts of the backend calls in a trace, in call order. -/
def promptsSent : List Event → List String
  | [] => []
  | .aiRun req :: rest => req.prompt :: promptsSent rest
  | _ :: rest => promptsSent rest

/-- The transcript a call starts from: the stored array, empty for the absent key. -/
def Storage.transcript (storage : Storage) : List Turn :=
  storage.history.getD []

/-- The body the edge handler sends to the Durable Object. -/
def chatBody (sessionId : JSVal) (message : String) : JSVal :=
  .obj [("sessionId", sessionId), ("message", .str message)]

/-- Spec wording: the last `k` entries of a sequence. -/
def lastTurns {α : Type} (k : Nat) (xs : List α) : List α :=
  (xs.reverse.take k).reverse

/-- Spec wording: the role tag in upper case. -/
def specRoleTag : Role → String
  | .user => "USER"
  | .assistant => "ASSISTANT"

/-- Spec wording: one rendered line, `<ROLE-UPPERCASE>: <content>`; content that is not
text enters in the string form that `+` gives it. -/
def specLine (t : Turn) : String :=
  specRoleTag t.role ++ ": " ++ toStr t.content

/-- Spec wording: the prompt for the stored transcript `h` and the new message `m`. -/
def specPrompt (h : List Turn) (m : String) : String :=
  "You are a direct, technical assistant. Use the short chat history and answer clearly, no fluff." ++
  "\n\nConversation:\n" ++
  "\n".intercalate
    ((lastTurns (min 10 (h.length + 1)) (h ++ [{ role := .user, content := .str m }])).map
      specLine) ++
  "\nASSISTANT:"

/-- Requests of the backend calls in a trace, in call order. -/
def aiRequests : List Event → List AiRequest
  | [] => []
  | .aiRun req :: rest => req :: aiRequests rest
  | _ :: rest => aiRequests rest

/-- Values of the `storage.put` calls in a trace, in call order. -/
def putsOf : List Event → List (String × List Turn)
  | [] => []
  | .storagePut key value :: rest => (key, value) :: putsOf rest
  | _ :: rest => putsOf rest

/-- Keys of the `storage.get` calls in a trace, in call order. -/
def getsOf : List Event → List String
  | [] => []
  | .storageGet key :: rest => key :: getsOf rest
  | _ :: rest => getsOf rest

/-- The generation call of `ChatSession.fetch ai storage body` succeeds with the
normalised reply `r`: the backend resolves on the request the call makes, and
normalising its result yields `r`. -/
def generates (ai : Backend) (storage : Storage) (body : JSVal) (r : JSVal) : Prop :=
  ∃ req result, aiRequests (ChatSession.fetch ai storage body).trace = [req] ∧
    ai req = .ok result ∧ normalizeReply result = .ok r

/-- The generation call of `ChatSession.fetch ai storage body` fails with the error `e`:
the backend rejects on the request the call makes. -/
def generationFails (ai : Backend) (storage : Storage) (body : JSVal) (e : JSError) : Prop :=
  ∃ req, aiRequests (ChatSession.fetch ai storage body).trace = [req] ∧ ai req = .error e

/-- A sequence of calls to the `ChatSession.fetch` of one session, each with its message
and the behaviour of the backend during that call; the storage after the last one. -/
def runCalls (sessionId : JSVal) (storage : Storage) : List (String × Backend) → Storage
  | [] => storage
  | (m, ai) :: rest =>
    runCalls sessionId (ChatSession.fetch ai storage (chatBody sessionId m)).storage rest

/-- Every call of the sequence succeeds, the `i`-th with normalised reply `rs[i]`. -/
def succeedWith (sessionId : JSVal) : Storage → List (String × Backend) → List JSVal → Prop
  | _, [], [] => True
  | storage, (m, ai) :: rest, r :: rs =>
    generates ai storage (chatBody sessionId m) r ∧
    succeedWith sessionId (ChatSession.fetch ai storage (chatBody sessionId m)).storage rest rs
  | _, _, _ => False

/-- The turns `{user, m1}, {assistant, r1}, ..., {user, mN}, {assistant, rN}`. -/
def turnsOf : List String → List JSVal → List Turn
  | m :: ms, r :: rs =>
    { role := .user, content := .str m } :: { role := .assistant, content := r } :: turnsOf ms rs
  | _, _ => []

/-- The response of the edge handler to an empty message. -/
def emptyMessageResponse : Response :=
  { body := .str "\x7b\"error\":\"empty message\"\x7d"
    status := 400
    headers := [("Content-Type", "application/json")] }

/-- The response of the edge handler on the root path. -/
def pageResponse : Response :=
  { body := .str HTML
    status := 200
    headers := [("Content-Type", "text/html;charset=UTF-8")] }

/-- The response of the edge handler to an unmatched route. -/
def notFoundResponse : Response :=
  { body := .str "not found", status := 404, headers := [] }

/-- Status of the response a handler ended with, if it did not throw. -/
def statusOf : Except JSError Response → Option Nat
  | .ok response => some response.status
  | .error _ => none

/-- The session id the edge handler works with, `body.sessionId || "default"`, for the
object body with properties `fields`. -/
def sessionIdOf (fields : List (String × JSVal)) : JSVal :=
  ((lookupField "sessionId" fields).getD .undefined).or (.str "default")

/-- One chat request of an interleaving: the session id and the message the client sends,
and the behaviour of the backend while the request is handled. -/
structure ChatCall where
  sessionId : String
  message : String
  ai : Backend

/-- The request `POST /api/chat` with body `{ sessionId, message }`. -/
def chatRequest (sessionId message : String) : Request :=
  { method := "POST", pathname := "/api/chat",
    json := some (chatBody (.str sessionId) message) }

/-- The namespace after the edge handler has handled the calls one after the other. -/
def sessionsAfter (sessions : Sessions) : List ChatCall → Sessions
  | [] => sessions
  | c :: rest =>
    sessionsAfter (Default.fetch c.ai sessions (chatRequest c.sessionId c.message)).sessions rest

/-- What each call of the sequence shows: its session id, the response or error it ends
with, and the external calls made for it (with the prompts sent and the values stored). -/
def observations (sessions : Sessions) :
    List ChatCall → List (String × Except JSError Response × List Event)
  | [] => []
  | c :: rest =>
    (c.sessionId,
      (Default.fetch c.ai sessions (chatRequest c.sessionId c.message)).result,
      (Default.fetch c.ai sessions (chatRequest c.sessionId c.message)).trace) ::
    observations (Default.fetch c.ai sessions (chatRequest c.sessionId c.message)).sessions rest

/-- The calls of a sequence that name session `a`. -/
def callsOf (a : String) (calls : List ChatCall) : List ChatCall :=
  calls.filter (fun c => decide (c.sessionId = a))

/-- The observations of a sequence that belong to session `a`. -/
def observedBy (a : String) (obs : List (String × Except JSError Response × List Event)) :
    List (String × Except JSError Response × List Event) :=
  obs.filter (fun o => decide (o.1 = a))

/-- A call of `ChatSession.fetch` suspended at `await this.env.AI.run(...)`: its local
`history`, with the user turn pushed, and the request it has handed to the backend. -/
structure Pending where
  history : List Turn
  req : AiRequest

/-- The part of `ChatSession.fetch` that runs before the backend is awaited: the parse of
the body, `storage.get`, the push of the user turn and the building of the prompt. -/
def ChatSession.fetchUntilRun (storage : Storage) (body : JSVal) : Except JSError Pending :=
  match destructure body with
  | .error e => .error e
  | .ok message =>
    let stored := storage.history
    let history := match stored with
      | some h => h
      | none => []
    let history := history ++ [{ role := .user, content := message }]
    let recent := slice history (-(MAX_TURNS : Int))
    let prompt := buildPrompt recent
    .ok { history := history,
          req := { model := "@cf/meta/llama-3.1-8b-instruct", prompt := prompt,
                   max_tokens := 256 } }

/-- The part of `ChatSession.fetch` that runs once the backend has settled: the
normalisation, the push of the assistant turn, `storage.put` and the response.  The
storage is the one found at that moment. -/
def ChatSession.fetchAfterRun (pending : Pending) (settled : Except JSError JSVal)
    (storage : Storage) : Except JSError Response × Storage :=
  match settled with
  | .error e => (.error e, storage)
  | .ok result =>
    match normalizeReply result with
    | .error e => (.error e, storage)
    | .ok reply =>
      let history := pending.history ++ [{ role := .assistant, content := reply }]
      (.ok (chatResponse reply history), { history := some history })

/-- The two concurrent calls. -/
inductive Caller where
  | first
  | second
  deriving DecidableEq, Repr

/-- A scheduling step: a call runs up to its await of the backend, or a call whose
backend has settled runs to its end. -/
inductive Action where
  | load (c : Caller)
  | persist (c : Caller)

/-- Two calls in flight on one Durable Object: its storage, the suspended calls, and the
results of the finished ones in order of completion. -/
structure Race where
  storage : Storage
  pending : Caller → Option Pending
  results : List (Caller × Except JSError Response)

/-- One scheduling step.  `calls c` is the body of call `c` and the behaviour of the
backend for it.  Nothing in the source orders the steps of two calls. -/
def Race.step (calls : Caller → JSVal × Backend) (s : Race) : Action → Race
  | .load c =>
    match ChatSession.fetchUntilRun s.storage (calls c).1 with
    | .error e => { s with results := s.results ++ [(c, .error e)] }
    | .ok p => { s with pending := fun d => if d = c then some p else s.pending d }
  | .persist c =>
    match s.pending c with
    | none => s
    | some p =>
      { storage := (ChatSession.fetchAfterRun p ((calls c).2 p.req) s.storage).2,
        pending := fun d => if d = c then none else s.pending d,
        results := s.results ++
          [(c, (ChatSession.fetchAfterRun p ((calls c).2 p.req) s.storage).1)] }

/-- The object after the steps of a schedule, started with no call in flight. -/
def Race.run (calls : Caller → JSVal × Backend) (storage : Storage)
    (schedule : List Action) : Race :=
  schedule.foldl (Race.step calls) { storage := storage, pending := fun _ => none, results := [] }

/-- The two calls of a race: `m1` with backend `ai1` and `m2` with backend `ai2`. -/
def twoCalls (sessionId : JSVal) (m1 m2 : String) (ai1 ai2 : Backend) :
    Caller → JSVal × Backend
  | .first => (chatBody sessionId m1, ai1)
  | .second => (chatBody sessionId m2, ai2)

/-- The first call ends before the second starts. -/
def serialSchedule : List Action :=
  [.load .first, .persist .first, .load .second, .persist .second]

/-- The second call ends before the first starts. -/
def serialSchedule2 : List Action :=
  [.load .second, .persist .second, .load .first, .persist .first]

/-- Both calls load, the first one first, before either persists; the first persists
first. -/
def overlapSchedule : List Action :=
  [.load .first, .load .second, .persist .first, .persist .second]

/-- Both calls load, the first one first, before either persists; the second persists
first. -/
def overlapSchedule2 : List Action :=
  [.load .first, .load .second, .persist .second, .persist .first]

/-- Both calls load, the second one first, before either persists; the first persists
first. -/
def overlapSchedule3 : List Action :=
  [.load .second, .load .first, .persist .first, .persist .second]

/-- Both calls load, the second one first, before either persists; the second persists
first. -/
def overlapSchedule4 : List Action :=
  [.load .second, .load .first, .persist .second, .persist .first]

/-! ## Concrete inputs -/

/-- A backend that resolves to the object `{ response: "hi" }`. -/
def backendHi : Backend :=
  fun _ => .ok (.obj [("response", .str "hi")])

/-- A backend that resolves to the plain string `"yo"`. -/
def backendYo : Backend :=
  fun _ => .ok (.str "yo")

/-- A backend that rejects. -/
def backendDown : Backend :=
  fun _ => .error (.rejected "backend down")

/-- Two successful calls, `hello` then `more`. -/
def demoCalls : List (String × Backend) :=
  [("hello", backendHi), ("more", backendYo)]

/-- A storage that already holds one exchange. -/
def demoStorage : Storage :=
  { history := some [{ role := .user, content := .str "a" },
                     { role := .assistant, content := .str "b" }] }

/-- A `DELETE` on the root path. -/
def demoRoot : Request :=
  { method := "DELETE", pathname := "/", json := none }

/-- A `GET` on the chat path. -/
def demoOther : Request :=
  { method := "GET", pathname := "/api/chat", json := none }

/-- Properties of the body `{ sessionId: "s1", message: " hello " }`. -/
def demoFields : List (String × JSVal) :=
  [("sessionId", .str "s1"), ("message", .str " hello ")]

/-- A `POST` on the chat path with the body `demoFields`. -/
def demoChat : Request :=
  { method := "POST", pathname := "/api/chat", json := some (.obj demoFields) }

/-- A namespace in which no session has stored anything. -/
def noSessions : Sessions :=
  fun _ => { history := none }

/-- Three interleaved calls: `s1`, then `s2`, then `s1` again. -/
def demoTraffic : List ChatCall :=
  [{ sessionId := "s1", message := "hello", ai := backendHi },
   { sessionId := "s2", message := "x", ai := backendYo },
   { sessionId := "s1", message := "more", ai := backendYo }]

/-- A `POST` on the chat path whose `message` is two blanks and a line feed. -/
def demoBlank : Request :=
  { method := "POST", pathname := "/api/chat",
    json := some (.obj [("sessionId", .str "s1"), ("message", .str "  \n")]) }

/-- A `POST` on the chat path whose JSON body is `null`. -/
def demoNull : Request :=
  { method := "POST", pathname := "/api/chat", json := some .null }

/-! ## The context window and the prompt -/
theorem slice_neg {α : Type} (xs : List α) (k : Nat) (hk : 0 < k) :
    slice xs (-(k : Int)) = xs.drop (xs.length - k) := by
  unfold slice
  simp only
  have h1 : (-(k : Int)) < 0 := by omega
  rw [if_pos h1]
  congr 1
  omega

theorem slice_MAX_TURNS {α : Type} (xs : List α) :
    slice xs (-(MAX_TURNS : Int)) = xs.drop (xs.length - 10) :=
  slice_neg xs 10 (by decide)

theorem lastTurns_eq_drop {α : Type} (k : Nat) (xs : List α) :
    lastTurns k xs = xs.drop (xs.length - k) := by
  unfold lastTurns
  rw [List.reverse_take, List.reverse_reverse]
  simp

theorem renderTurn_eq_specLine (t : Turn) : renderTurn t = specLine t := by
  obtain ⟨r, c⟩ := t
  cases r <;> rfl

theorem destructure_chatBody (sessionId : JSVal) (m : String) :
    destructure (chatBody sessionId m) = .ok (.str m) := by
  rfl

theorem fetch_promptsSent (ai : Backend) (storage : Storage) (body message : JSVal)
    (hb : destructure body = .ok message) :
    promptsSent (ChatSession.fetch ai storage body).trace =
      [buildPrompt (slice (storage.transcript ++ [{ role := .user, content := message }])
        (-(MAX_TURNS : Int)))] := by
  have ht : (match storage.history with | some h => h | none => []) = storage.transcript := by
    unfold Storage.transcript
    cases storage.history <;> rfl
  unfold ChatSession.fetch
  simp only [hb, ht]
  split
  · rfl
  · split <;> rfl

theorem buildPrompt_eq_spec (ts : List Turn) :
    buildPrompt ts =
      "You are a direct, technical assistant. Use the short chat history and answer clearly, no fluff." ++
      "\n\nConversation:\n" ++ "\n".intercalate (ts.map specLine) ++ "\nASSISTANT:" := by
  unfold buildPrompt
  have h1 : ts.map renderTurn = ts.map specLine := by
    apply List.map_congr_left
    intro t _
    exact renderTurn_eq_specLine t
  have h2 : systemPrompt =
      "You are a direct, technical assistant. Use the short chat history and answer clearly, no fluff." := by
    decide
  rw [h1, h2]

theorem lastTurns_min_length {α : Type} (k : Nat) (xs : List α) :
    lastTurns (min k xs.length) xs = xs.drop (xs.length - k) := by
  rw [lastTurns_eq_drop]
  congr 1
  omega

theorem fetch_prompt_spec (ai : Backend) (storage : Storage) (sessionId : JSVal)
    (m : String) :
    promptsSent (ChatSession.fetch ai storage (chatBody sessionId m)).trace =
      [specPrompt storage.transcript m] := by
  rw [fetch_promptsSent ai _ _ _ (destructure_chatBody sessionId m), slice_MAX_TURNS,
    buildPrompt_eq_spec]
  unfold specPrompt
  have e2 : lastTurns (min 10 (storage.transcript.length + 1))
        (storage.transcript ++ [{ role := .user, content := .str m }])
      = (storage.transcript ++ [({ role := .user, content := .str m } : Turn)]).drop
          ((storage.transcript ++ [({ role := .user, content := .str m } : Turn)]).length - 10) := by
    have := lastTurns_min_length 10
      (storage.transcript ++ [({ role := .user, content := .str m } : Turn)])
    simpa using this
  rw [e2]

theorem lastTurns_window {α : Type} (h : List α) (u : α) :
    (lastTurns (min 10 (h.length + 1)) (h ++ [u])).length = min 10 (h.length + 1) ∧
    (lastTurns (min 10 (h.length + 1)) (h ++ [u])).getLast? = some u ∧
    (if h.length + 1 < 10
      then lastTurns (min 10 (h.length + 1)) (h ++ [u]) = h ++ [u]
      else (lastTurns (min 10 (h.length + 1)) (h ++ [u])).length = 10) := by
  have e : lastTurns (min 10 (h.length + 1)) (h ++ [u])
      = (h ++ [u]).drop (h.length + 1 - 10) := by
    have := lastTurns_min_length 10 (h ++ [u])
    simpa using this
  rw [e]
  refine ⟨?_, ?_, ?_⟩
  · simp
    omega
  · rw [List.drop_append_of_le_length (by omega)]
    simp
  · split
    · rename_i hlt
      have : h.length + 1 - 10 = 0 := by omega
      rw [this]
      rfl
    · simp
      omega

/-- C1: for every storage, with stored transcript `h` of any length `n` and whatever the
content of its turns, and every message `m`, the one prompt that `ChatSession.fetch`
passes to the backend is the system instruction, the separator, the lines
`ROLE: content` of the last `min 10 (n+1)` turns of `h ++ [user m]` joined by newlines,
and the cue `ASSISTANT:`; a text content enters the line as it is.  The window has
`min 10 (n+1)` turns, ends with the new user turn, is the whole transcript when
`n+1 < 10` and has 10 turns otherwise; for `hello` on an empty history the prompt is the
literal text shown. -/
theorem C1_prompt_is_windowed_transcript (ai : Backend) (storage : Storage)
    (sessionId : JSVal) (m : String) (role : Role) (content : String) :
    promptsSent (ChatSession.fetch ai storage (chatBody sessionId m)).trace
      = [specPrompt storage.transcript m] ∧
    specLine { role := role, content := .str content } = specRoleTag role ++ ": " ++ content ∧
    (lastTurns (min 10 (storage.transcript.length + 1))
      (storage.transcript ++ [({ role := .user, content := .str m } : Turn)])).length
      = min 10 (storage.transcript.length + 1) ∧
    (lastTurns (min 10 (storage.transcript.length + 1))
      (storage.transcript ++ [({ role := .user, content := .str m } : Turn)])).getLast?
      = some { role := .user, content := .str m } ∧
    (if storage.transcript.length + 1 < 10
      then lastTurns (min 10 (storage.transcript.length + 1))
          (storage.transcript ++ [({ role := .user, content := .str m } : Turn)])
        = storage.transcript ++ [{ role := .user, content := .str m }]
      else (lastTurns (min 10 (storage.transcript.length + 1))
          (storage.transcript ++ [({ role := .user, content := .str m } : Turn)])).length
        = 10) ∧
    promptsSent (ChatSession.fetch ai { history := none } (chatBody sessionId "hello")).trace
      = ["You are a direct, technical assistant. Use the short chat history and answer clearly, no fluff." ++
         "\n\nConversation:\nUSER: hello\nASSISTANT:"] := by
  obtain ⟨w1, w2, w3⟩ := lastTurns_window storage.transcript
    ({ role := .user, content := .str m } : Turn)
  refine ⟨fetch_prompt_spec ai storage sessionId m, rfl, w1, w2, w3, ?_⟩
  rw [fetch_promptsSent ai _ _ _ (destructure_chatBody sessionId "hello")]
  decide

/-! ## Reply normalisation -/

theorem serialize_isSome_of_ne_undefined (v : JSVal) (hv : v ≠ .undefined) :
    ∃ s, serialize v = some s := by
  cases v with
  | undefined => exact absurd rfl hv
  | null => exact ⟨_, rfl⟩
  | bool b => exact ⟨_, rfl⟩
  | num n => exact ⟨_, rfl⟩
  | str s => exact ⟨_, rfl⟩
  | arr xs => exact ⟨_, by rw [serialize]⟩
  | obj fields => exact ⟨_, by rw [serialize]⟩

theorem stringify_isText_of_ne_undefined (v : JSVal) (hv : v ≠ .undefined) :
    ∃ s, JSON.stringify v = .str s := by
  obtain ⟨s, hs⟩ := serialize_isSome_of_ne_undefined v hv
  exact ⟨s, by simp [JSON.stringify, hs]⟩

theorem normalizeReply_str (s : String) : normalizeReply (.str s) = .ok (.str s) := by
  rfl

theorem normalizeReply_obj (fields : List (String × JSVal)) :
    normalizeReply (.obj fields) =
      .ok (((lookupField "response" fields).getD .undefined).or (JSON.stringify (.obj fields))) := by
  rfl

theorem truthy_str (X : String) (hX : X ≠ "") : truthy (.str X) = true := by
  simp [truthy, hX]

/-- C2 (counterexample): for the backend value `{ response: "" }` the reply is the JSON
text of the whole object, not the empty text of its `response` field. -/
theorem C2_empty_response_counterexample :
    normalizeReply (.obj [("response", .str "")]) = .ok (.str "\x7b\"response\":\"\"\x7d") ∧
    normalizeReply (.obj [("response", .str "")]) ≠ .ok (.str "") := by
  constructor
  · rfl
  · intro h
    have h2 : normalizeReply (.obj [("response", .str "")])
        = .ok (.str "\x7b\"response\":\"\"\x7d") := rfl
    rw [h2] at h
    injection h with h3
    injection h3 with h4
    exact absurd h4 (by decide)

/-- C2 (amended): a plain string is the reply as it is; an object whose `response` is a
non-empty text `X` gives the reply `X`; an object whose `response` is the empty text, and
an object with no `response` property, give the JSON text of the whole object. -/
theorem C2_normalizeReply_three_way (s X : String) (withX withEmpty without : List (String × JSVal))
    (hX : lookupField "response" withX = some (.str X)) (hne : X ≠ "")
    (hEmpty : lookupField "response" withEmpty = some (.str ""))
    (hNone : lookupField "response" without = none) :
    normalizeReply (.str s) = .ok (.str s) ∧
    normalizeReply (.obj withX) = .ok (.str X) ∧
    normalizeReply (.obj withEmpty) = .ok (JSON.stringify (.obj withEmpty)) ∧
    normalizeReply (.obj without) = .ok (JSON.stringify (.obj without)) ∧
    (∃ t, JSON.stringify (.obj withEmpty) = .str t) ∧
    (∃ t, JSON.stringify (.obj without) = .str t) := by
  refine ⟨rfl, ?_, ?_, ?_, ?_, ?_⟩
  · rw [normalizeReply_obj, hX]
    simp [JSVal.or, truthy_str X hne]
  · rw [normalizeReply_obj, hEmpty]
    simp [JSVal.or, truthy]
  · rw [normalizeReply_obj, hNone]
    simp [JSVal.or, truthy]
  · exact stringify_isText_of_ne_undefined _ (by simp)
  · exact stringify_isText_of_ne_undefined _ (by simp)

/-- C2 (witness): the amended rule at `"ok"`, `{ response: "X" }`, `{ response: "" }` and
`{ usage: 3 }`. -/
theorem C2_normalizeReply_three_way_witness :
    normalizeReply (.str "ok") = .ok (.str "ok") ∧
    normalizeReply (.obj [("response", .str "X")]) = .ok (.str "X") ∧
    normalizeReply (.obj [("response", .str "")])
      = .ok (JSON.stringify (.obj [("response", .str "")])) ∧
    normalizeReply (.obj [("usage", .num 3)]) = .ok (JSON.stringify (.obj [("usage", .num 3)])) ∧
    (∃ t, JSON.stringify (.obj [("response", .str "")]) = .str t) ∧
    (∃ t, JSON.stringify (.obj [("usage", .num 3)]) = .str t) :=
  C2_normalizeReply_three_way "ok" "X" [("response", .str "X")] [("response", .str "")]
    [("usage", .num 3)] rfl (by decide) rfl rfl

theorem isString_iff (v : JSVal) : isString v = true ↔ ∃ s, v = .str s := by
  cases v <;> simp [isString]

theorem getProp_ok_ne_undefined (r v : JSVal) (key : String) (h : getProp r key = .ok v) :
    r ≠ .undefined := by
  intro hr
  subst hr
  simp [getProp] at h

theorem normalizeReply_of_not_string (r : JSVal) (hr : isString r = false) :
    normalizeReply r =
      match getProp r "response" with
      | .error e => .error e
      | .ok response => .ok (response.or (JSON.stringify r)) := by
  simp [normalizeReply, hr]

/-- C7 (counterexample): on `null` the normalisation raises a TypeError, and on
`{ response: true }` it yields the boolean `true`; neither is a text reply. -/
theorem C7_not_total_counterexample :
    normalizeReply .null = .error .typeError ∧
    normalizeReply (.obj [("response", .bool true)]) = .ok (.bool true) ∧
    (¬ ∃ s, normalizeReply .null = .ok (.str s)) ∧
    (¬ ∃ s, normalizeReply (.obj [("response", .bool true)]) = .ok (.str s)) := by
  refine ⟨rfl, rfl, ?_, ?_⟩
  · rintro ⟨s, hs⟩
    have h : normalizeReply .null = .error .typeError := rfl
    rw [h] at hs
    cases hs
  · rintro ⟨s, hs⟩
    have h : normalizeReply (.obj [("response", .bool true)]) = .ok (.bool true) := rfl
    rw [h] at hs
    injection hs with h2
    cases h2

/-- The normalisation completes with a text reply exactly when the backend value is a
string, or its `response` property can be read and is falsy or a string. -/
theorem normalizeReply_text_iff (r : JSVal) :
    (∃ s, normalizeReply r = .ok (.str s)) ↔
      (isString r = true ∨
        ∃ v, getProp r "response" = .ok v ∧ (truthy v = false ∨ isString v = true)) := by
  constructor
  · rintro ⟨s, hs⟩
    by_cases hr : isString r = true
    · exact Or.inl hr
    · right
      have hr2 : isString r = false := by simpa using hr
      rw [normalizeReply_of_not_string r hr2] at hs
      cases hg : getProp r "response" with
      | error e => rw [hg] at hs; cases hs
      | ok v =>
        refine ⟨v, rfl, ?_⟩
        rw [hg] at hs
        by_cases hv : truthy v = true
        · right
          simp only [JSVal.or, hv, if_true] at hs
          injection hs with h2
          rw [h2]
          rfl
        · left
          simpa using hv
  · rintro (hr | ⟨v, hg, hv⟩)
    · obtain ⟨s, rfl⟩ := (isString_iff r).1 hr
      exact ⟨s, rfl⟩
    · by_cases hr : isString r = true
      · obtain ⟨s, rfl⟩ := (isString_iff r).1 hr
        exact ⟨s, rfl⟩
      · have hr2 : isString r = false := by simpa using hr
        rw [normalizeReply_of_not_string r hr2, hg]
        by_cases ht : truthy v = true
        · rcases hv with hv | hv
          · rw [hv] at ht
            cases ht
          · obtain ⟨s, rfl⟩ := (isString_iff v).1 hv
            exact ⟨s, by simp [JSVal.or, ht]⟩
        · have ht2 : truthy v = false := by simpa using ht
          obtain ⟨t, hjs⟩ := stringify_isText_of_ne_undefined r
            (getProp_ok_ne_undefined r v "response" hg)
          exact ⟨t, by simp [JSVal.or, ht2, hjs]⟩

theorem not_string_of_truthy_prop (r v : JSVal) (key : String)
    (h : getProp r key = .ok v) (ht : truthy v = true) : isString r = false := by
  cases r with
  | str s =>
    simp only [getProp] at h
    injection h with h2
    rw [← h2] at ht
    simp [truthy] at ht
  | undefined => rfl
  | null => rfl
  | bool b => rfl
  | num n => rfl
  | arr xs => rfl
  | obj fields => rfl

/-- A truthy `response` is the reply, whatever its type. -/
theorem normalizeReply_passthrough (r v : JSVal) (h : getProp r "response" = .ok v)
    (ht : truthy v = true) : normalizeReply r = .ok v := by
  rw [normalizeReply_of_not_string r (not_string_of_truthy_prop r v "response" h ht), h]
  simp [JSVal.or, ht]

/-- C7 (amended): the normalisation completes with a text reply exactly when the backend
value is a string, or its `response` property can be read (the value is neither `null`
nor `undefined`) and is falsy or a string.  A truthy `response` that is not a string is
passed through as the reply unchanged, which is then not a text; for `null` and for
`undefined` the read of `.response` raises a TypeError. -/
theorem C7_normalizeReply_text_iff (r : JSVal) (r2 v : JSVal)
    (hv : getProp r2 "response" = .ok v) (ht : truthy v = true) (hs : isString v = false) :
    ((∃ s, normalizeReply r = .ok (.str s)) ↔
      (isString r = true ∨
        ∃ w, getProp r "response" = .ok w ∧ (truthy w = false ∨ isString w = true))) ∧
    normalizeReply r2 = .ok v ∧
    (¬ ∃ s, normalizeReply r2 = .ok (.str s)) ∧
    normalizeReply .null = .error .typeError ∧
    normalizeReply .undefined = .error .typeError := by
  have hp := normalizeReply_passthrough r2 v hv ht
  refine ⟨normalizeReply_text_iff r, hp, ?_, rfl, rfl⟩
  rintro ⟨s, hs2⟩
  rw [hp] at hs2
  injection hs2 with h3
  rw [h3] at hs
  simp [isString] at hs

/-- C7 (witness): the values `{ response: "X" }`, read through the equivalence, and
`{ response: 42 }`, whose number is passed through. -/
theorem C7_normalizeReply_text_iff_witness :
    (getProp (.obj [("response", .num 42)]) "response" = .ok (.num 42) ∧
      truthy (.num 42) = true ∧ isString (.num 42) = false) ∧
    (((∃ s, normalizeReply (.obj [("response", .str "X")]) = .ok (.str s)) ↔
      (isString (.obj [("response", .str "X")]) = true ∨
        ∃ w, getProp (.obj [("response", .str "X")]) "response" = .ok w ∧
          (truthy w = false ∨ isString w = true))) ∧
    normalizeReply (.obj [("response", .num 42)]) = .ok (.num 42) ∧
    (¬ ∃ s, normalizeReply (.obj [("response", .num 42)]) = .ok (.str s)) ∧
    normalizeReply .null = .error .typeError ∧
    normalizeReply .undefined = .error .typeError) :=
  ⟨⟨rfl, rfl, rfl⟩,
    C7_normalizeReply_text_iff (.obj [("response", .str "X")]) (.obj [("response", .num 42)])
      (.num 42) rfl rfl rfl⟩

/-! ## Persistence -/

theorem transcript_match (storage : Storage) :
    (match storage.history with | some h => h | none => []) = storage.transcript := by
  unfold Storage.transcript
  cases storage.history <;> rfl

theorem fetch_aiRequests (ai : Backend) (storage : Storage) (body message : JSVal)
    (hb : destructure body = .ok message) :
    aiRequests (ChatSession.fetch ai storage body).trace =
      [{ model := "@cf/meta/llama-3.1-8b-instruct",
         prompt := buildPrompt (slice (storage.transcript ++
           [{ role := .user, content := message }]) (-(MAX_TURNS : Int))),
         max_tokens := 256 }] := by
  unfold ChatSession.fetch
  simp only [hb, transcript_match]
  split
  · rfl
  · split <;> rfl

/-- The outcome of a call whose generation succeeds with reply `r`. -/
theorem fetch_of_generates (ai : Backend) (storage : Storage) (body message r : JSVal)
    (hb : destructure body = .ok message) (hg : generates ai storage body r) :
    ∃ req,
      ChatSession.fetch ai storage body =
        { result := .ok (chatResponse r (storage.transcript ++
            [{ role := .user, content := message }, { role := .assistant, content := r }])),
          storage := { history := some (storage.transcript ++
            [{ role := .user, content := message }, { role := .assistant, content := r }]) },
          trace := [.storageGet "history", .aiRun req,
            .storagePut "history" (storage.transcript ++
              [{ role := .user, content := message }, { role := .assistant, content := r }])] } := by
  obtain ⟨req, result, hreq, hai, hnorm⟩ := hg
  rw [fetch_aiRequests ai storage body message hb] at hreq
  have hreq2 := (List.cons.inj hreq).1
  refine ⟨req, ?_⟩
  unfold ChatSession.fetch
  simp only [hb, transcript_match, hreq2, hai, hnorm, List.append_assoc, List.singleton_append]

/-- The outcome of a call whose generation fails with error `e`. -/
theorem fetch_of_generationFails (ai : Backend) (storage : Storage) (body message : JSVal)
    (e : JSError) (hb : destructure body = .ok message)
    (hf : generationFails ai storage body e) :
    ∃ req,
      ChatSession.fetch ai storage body =
        { result := .error e, storage := storage,
          trace := [.storageGet "history", .aiRun req] } := by
  obtain ⟨req, hreq, hai⟩ := hf
  rw [fetch_aiRequests ai storage body message hb] at hreq
  have hreq2 := (List.cons.inj hreq).1
  refine ⟨req, ?_⟩
  unfold ChatSession.fetch
  simp only [hb, transcript_match, hreq2, hai]

theorem turnsOf_length (ms : List String) (rs : List JSVal) (h : ms.length = rs.length) :
    (turnsOf ms rs).length = 2 * ms.length := by
  induction ms generalizing rs with
  | nil => cases rs <;> simp [turnsOf]
  | cons m ms ih =>
    cases rs with
    | nil => simp at h
    | cons r rs =>
      simp only [turnsOf, List.length_cons]
      rw [ih rs (by simpa using h)]
      omega

theorem succeedWith_length (sessionId : JSVal) (storage : Storage)
    (calls : List (String × Backend)) (rs : List JSVal)
    (h : succeedWith sessionId storage calls rs) : calls.length = rs.length := by
  induction calls generalizing storage rs with
  | nil =>
    cases rs with
    | nil => rfl
    | cons r rs => simp [succeedWith] at h
  | cons c calls ih =>
    obtain ⟨m, ai⟩ := c
    cases rs with
    | nil => simp [succeedWith] at h
    | cons r rs =>
      simp only [succeedWith] at h
      simp only [List.length_cons]
      rw [ih _ rs h.2]

theorem runCalls_transcript (sessionId : JSVal) (storage : Storage)
    (calls : List (String × Backend)) (rs : List JSVal)
    (h : succeedWith sessionId storage calls rs) :
    (runCalls sessionId storage calls).transcript =
      storage.transcript ++ turnsOf (calls.map Prod.fst) rs := by
  induction calls generalizing storage rs with
  | nil =>
    cases rs with
    | nil => simp [runCalls, turnsOf]
    | cons r rs => simp [succeedWith] at h
  | cons c calls ih =>
    obtain ⟨m, ai⟩ := c
    cases rs with
    | nil => simp [succeedWith] at h
    | cons r rs =>
      simp only [succeedWith] at h
      obtain ⟨req, hfetch⟩ := fetch_of_generates ai storage (chatBody sessionId m) (.str m) r
        (destructure_chatBody sessionId m) h.1
      simp only [runCalls, List.map_cons, turnsOf]
      rw [ih _ rs h.2, hfetch]
      simp [Storage.transcript]

/-- C3: a sequence of `N` successful calls with messages `m1..mN` and normalised replies
`r1..rN` leaves as persisted transcript the one it started from followed by
`{user,m1},{assistant,r1},...,{user,mN},{assistant,rN}`, nothing dropped; started from a
storage without the `history` key the transcript is exactly those `2N` turns, and a
single successful call writes the previous transcript followed by its two turns with one
`storage.put`. -/
theorem C3_persisted_transcript_after_calls (sessionId : JSVal) (storage : Storage)
    (calls : List (String × Backend)) (rs : List JSVal)
    (h : succeedWith sessionId storage calls rs)
    (calls0 : List (String × Backend)) (rs0 : List JSVal)
    (h0 : succeedWith sessionId { history := none } calls0 rs0)
    (ai : Backend) (m : String) (r : JSVal)
    (h1 : generates ai storage (chatBody sessionId m) r) :
    (runCalls sessionId storage calls).transcript =
      storage.transcript ++ turnsOf (calls.map Prod.fst) rs ∧
    (runCalls sessionId storage calls).transcript.length =
      storage.transcript.length + 2 * calls.length ∧
    (runCalls sessionId { history := none } calls0).transcript =
      turnsOf (calls0.map Prod.fst) rs0 ∧
    (runCalls sessionId { history := none } calls0).transcript.length = 2 * calls0.length ∧
    (ChatSession.fetch ai storage (chatBody sessionId m)).storage.history =
      some (storage.transcript ++
        [{ role := .user, content := .str m }, { role := .assistant, content := r }]) ∧
    putsOf (ChatSession.fetch ai storage (chatBody sessionId m)).trace =
      [("history", storage.transcript ++
        [{ role := .user, content := .str m }, { role := .assistant, content := r }])] := by
  have hl := succeedWith_length sessionId storage calls rs h
  have hl0 := succeedWith_length sessionId _ calls0 rs0 h0
  have e := runCalls_transcript sessionId storage calls rs h
  have e0 := runCalls_transcript sessionId _ calls0 rs0 h0
  obtain ⟨req, hfetch⟩ := fetch_of_generates ai storage (chatBody sessionId m) (.str m) r
    (destructure_chatBody sessionId m) h1
  refine ⟨e, ?_, ?_, ?_, ?_, ?_⟩
  · rw [e, List.length_append, turnsOf_length _ _ (by simpa using hl)]
    simp
  · rw [e0]
    simp [Storage.transcript]
  · rw [e0]
    simp only [Storage.transcript, Option.getD_none, List.nil_append]
    rw [turnsOf_length _ _ (by simpa using hl0)]
    simp
  · rw [hfetch]
  · rw [hfetch]
    rfl

/-- C3 (witness): two calls `hello`, `more` answered `hi`, `yo`, from a storage holding
one exchange and from a storage without the `history` key. -/
theorem C3_persisted_transcript_after_calls_witness :
    succeedWith (.str "s1") demoStorage demoCalls [.str "hi", .str "yo"] ∧
    succeedWith (.str "s1") { history := none } demoCalls [.str "hi", .str "yo"] ∧
    generates backendHi demoStorage (chatBody (.str "s1") "hello") (.str "hi") ∧
    ((runCalls (.str "s1") demoStorage demoCalls).transcript =
      demoStorage.transcript ++ turnsOf (demoCalls.map Prod.fst) [.str "hi", .str "yo"] ∧
    (runCalls (.str "s1") demoStorage demoCalls).transcript.length =
      demoStorage.transcript.length + 2 * demoCalls.length ∧
    (runCalls (.str "s1") { history := none } demoCalls).transcript =
      turnsOf (demoCalls.map Prod.fst) [.str "hi", .str "yo"] ∧
    (runCalls (.str "s1") { history := none } demoCalls).transcript.length
      = 2 * demoCalls.length ∧
    (ChatSession.fetch backendHi demoStorage (chatBody (.str "s1") "hello")).storage.history =
      some (demoStorage.transcript ++
        [{ role := .user, content := .str "hello" }, { role := .assistant, content := .str "hi" }]) ∧
    putsOf (ChatSession.fetch backendHi demoStorage (chatBody (.str "s1") "hello")).trace =
      [("history", demoStorage.transcript ++
        [{ role := .user, content := .str "hello" },
         { role := .assistant, content := .str "hi" }])]) :=
  have hs : succeedWith (.str "s1") demoStorage demoCalls [.str "hi", .str "yo"] :=
    ⟨⟨_, _, rfl, rfl, rfl⟩, ⟨_, _, rfl, rfl, rfl⟩, trivial⟩
  have hs0 : succeedWith (.str "s1") { history := none } demoCalls [.str "hi", .str "yo"] :=
    ⟨⟨_, _, rfl, rfl, rfl⟩, ⟨_, _, rfl, rfl, rfl⟩, trivial⟩
  have hg : generates backendHi demoStorage (chatBody (.str "s1") "hello") (.str "hi") :=
    ⟨_, _, rfl, rfl, rfl⟩
  ⟨hs, hs0, hg,
    C3_persisted_transcript_after_calls (.str "s1") demoStorage demoCalls [.str "hi", .str "yo"]
      hs demoCalls [.str "hi", .str "yo"] hs0 backendHi "hello" (.str "hi") hg⟩

theorem slice_eq_lastTurns {α : Type} (xs : List α) :
    slice xs (-(MAX_TURNS : Int)) = lastTurns (min 10 xs.length) xs := by
  rw [slice_MAX_TURNS, lastTurns_min_length]

theorem lastTurns_append_two {α : Type} (xs : List α) (u a : α) :
    (lastTurns (min 10 (xs.length + 2)) (xs ++ [u, a])).length = min 10 (xs.length + 2) ∧
    (lastTurns (min 10 (xs.length + 2)) (xs ++ [u, a])).getLast? = some a := by
  have e : lastTurns (min 10 (xs.length + 2)) (xs ++ [u, a])
      = (xs ++ [u, a]).drop (xs.length + 2 - 10) := by
    have := lastTurns_min_length 10 (xs ++ [u, a])
    simpa using this
  rw [e]
  constructor
  · simp
    omega
  · have e2 : xs ++ [u, a] = (xs ++ [u]) ++ [a] := by simp
    rw [e2, List.drop_append_of_le_length (by simp; omega)]
    simp

/-- C4: when the generation succeeds with normalised reply `r`, the response of
`ChatSession.fetch` is the JSON text of `{ reply: r, history: w }` with status 200, where
`w` is the last `min 10 (n+2)` turns of the stored transcript followed by the user turn
and the assistant turn; `w` has `min 10 (n+2)` entries and its last one is
`{assistant, r}`. -/
theorem C4_response_echoes_recent_history (ai : Backend) (storage : Storage)
    (sessionId : JSVal) (m : String) (r : JSVal)
    (hg : generates ai storage (chatBody sessionId m) r) :
    (ChatSession.fetch ai storage (chatBody sessionId m)).result =
      .ok { body := JSON.stringify (.obj
              [("reply", r),
               ("history", .arr ((lastTurns (min 10 (storage.transcript.length + 2))
                  (storage.transcript ++ [{ role := .user, content := .str m },
                    { role := .assistant, content := r }])).map Turn.toJS))])
            status := 200
            headers := [("Content-Type", "application/json")] } ∧
    (lastTurns (min 10 (storage.transcript.length + 2))
      (storage.transcript ++ [{ role := .user, content := .str m },
        { role := .assistant, content := r }])).length
      = min 10 (storage.transcript.length + 2) ∧
    (lastTurns (min 10 (storage.transcript.length + 2))
      (storage.transcript ++ [{ role := .user, content := .str m },
        { role := .assistant, content := r }])).getLast?
      = some { role := .assistant, content := r } := by
  obtain ⟨req, hfetch⟩ := fetch_of_generates ai storage (chatBody sessionId m) (.str m) r
    (destructure_chatBody sessionId m) hg
  obtain ⟨w1, w2⟩ := lastTurns_append_two storage.transcript
    ({ role := .user, content := .str m } : Turn) { role := .assistant, content := r }
  refine ⟨?_, w1, w2⟩
  rw [hfetch]
  simp only [chatResponse, slice_eq_lastTurns]
  simp

/-- C4 (witness): `hello` answered `hi` on a storage that holds one exchange. -/
theorem C4_response_echoes_recent_history_witness :
    generates backendHi demoStorage (chatBody (.str "s1") "hello") (.str "hi") ∧
    (ChatSession.fetch backendHi demoStorage (chatBody (.str "s1") "hello")).result =
      .ok { body := JSON.stringify (.obj
              [("reply", .str "hi"),
               ("history", .arr ((lastTurns (min 10 (demoStorage.transcript.length + 2))
                  (demoStorage.transcript ++ [{ role := .user, content := .str "hello" },
                    { role := .assistant, content := .str "hi" }])).map Turn.toJS))])
            status := 200
            headers := [("Content-Type", "application/json")] } ∧
    (lastTurns (min 10 (demoStorage.transcript.length + 2))
      (demoStorage.transcript ++ [{ role := .user, content := .str "hello" },
        { role := .assistant, content := .str "hi" }])).length
      = min 10 (demoStorage.transcript.length + 2) ∧
    (lastTurns (min 10 (demoStorage.transcript.length + 2))
      (demoStorage.transcript ++ [{ role := .user, content := .str "hello" },
        { role := .assistant, content := .str "hi" }])).getLast?
      = some { role := .assistant, content := .str "hi" } :=
  ⟨⟨_, _, rfl, rfl, rfl⟩,
    C4_response_echoes_recent_history backendHi demoStorage (.str "s1") "hello" (.str "hi")
      ⟨_, _, rfl, rfl, rfl⟩⟩

/-- C5: when the generation call fails with error `e`, `ChatSession.fetch` fails with
`e`, makes no `storage.put`, and leaves the storage, hence the persisted transcript, as it
was; the trace is the read of `history` followed by the backend call. -/
theorem C5_generation_failure_persists_nothing (ai : Backend) (storage : Storage)
    (sessionId : JSVal) (m : String) (e : JSError)
    (hf : generationFails ai storage (chatBody sessionId m) e) :
    (ChatSession.fetch ai storage (chatBody sessionId m)).result = .error e ∧
    (∃ req, (ChatSession.fetch ai storage (chatBody sessionId m)).trace
      = [.storageGet "history", .aiRun req]) ∧
    putsOf (ChatSession.fetch ai storage (chatBody sessionId m)).trace = [] ∧
    (ChatSession.fetch ai storage (chatBody sessionId m)).storage = storage ∧
    (ChatSession.fetch ai storage (chatBody sessionId m)).storage.transcript
      = storage.transcript := by
  obtain ⟨req, hfetch⟩ := fetch_of_generationFails ai storage (chatBody sessionId m) (.str m) e
    (destructure_chatBody sessionId m) hf
  rw [hfetch]
  exact ⟨rfl, ⟨req, rfl⟩, rfl, rfl, rfl⟩

/-- C5 (witness): the backend rejects while the storage holds one exchange. -/
theorem C5_generation_failure_persists_nothing_witness :
    generationFails backendDown demoStorage (chatBody (.str "s1") "hello")
      (.rejected "backend down") ∧
    ((ChatSession.fetch backendDown demoStorage (chatBody (.str "s1") "hello")).result
      = .error (.rejected "backend down") ∧
    (∃ req, (ChatSession.fetch backendDown demoStorage (chatBody (.str "s1") "hello")).trace
      = [.storageGet "history", .aiRun req]) ∧
    putsOf (ChatSession.fetch backendDown demoStorage (chatBody (.str "s1") "hello")).trace = [] ∧
    (ChatSession.fetch backendDown demoStorage (chatBody (.str "s1") "hello")).storage
      = demoStorage ∧
    (ChatSession.fetch backendDown demoStorage (chatBody (.str "s1") "hello")).storage.transcript
      = demoStorage.transcript) :=
  ⟨⟨_, rfl, rfl⟩,
    C5_generation_failure_persists_nothing backendDown demoStorage (.str "s1") "hello"
      (.rejected "backend down") ⟨_, rfl, rfl⟩⟩

/-! ## The edge handler: validation and routing -/

theorem trim_empty : trim "" = "" := by
  decide

theorem api_ne_root : ¬ ("/api/chat" = "/") := by
  decide

theorem stringify_empty_message :
    JSON.stringify (.obj [("error", .str "empty message")])
      = .str "\x7b\"error\":\"empty message\"\x7d" := by
  rfl

/-- The chat branch of the edge handler on an object body. -/
theorem Default.fetch_chat (ai : Backend) (sessions : Sessions) (request : Request)
    (fields : List (String × JSVal))
    (hp : request.pathname = "/api/chat") (hm : request.method = "POST")
    (hj : request.json = some (.obj fields)) :
    Default.fetch ai sessions request =
      match callTrim (((lookupField "message" fields).getD .undefined).or (.str "")) with
      | .error e => { result := .error e, sessions := sessions, trace := [] }
      | .ok message =>
        if !truthy message then
          { result := .ok emptyMessageResponse, sessions := sessions, trace := [] }
        else
          { result := (ChatSession.fetch ai (sessions (idFromName (sessionIdOf fields)))
              (.obj [("sessionId", sessionIdOf fields), ("message", message)])).result,
            sessions := sessions.set (idFromName (sessionIdOf fields))
              (ChatSession.fetch ai (sessions (idFromName (sessionIdOf fields)))
                (.obj [("sessionId", sessionIdOf fields), ("message", message)])).storage,
            trace := .stubFetch (idFromName (sessionIdOf fields)) ::
              (ChatSession.fetch ai (sessions (idFromName (sessionIdOf fields)))
                (.obj [("sessionId", sessionIdOf fields), ("message", message)])).trace } := by
  unfold Default.fetch
  simp only [hp, hm, hj, api_ne_root, if_false, and_self, if_true, getProp, sessionIdOf,
    emptyMessageResponse, stringify_empty_message]

theorem getProp_ok_of_ok (body v : JSVal) (key key2 : String)
    (h : getProp body key = .ok v) : ∃ w, getProp body key2 = .ok w := by
  cases body with
  | undefined => simp [getProp] at h
  | null => simp [getProp] at h
  | bool b => exact ⟨_, rfl⟩
  | num n => exact ⟨_, rfl⟩
  | str s => exact ⟨_, rfl⟩
  | arr xs => exact ⟨_, rfl⟩
  | obj fields => exact ⟨_, rfl⟩

/-- The edge handler on a chat request whose message is falsy or trims to nothing. -/
theorem Default.fetch_empty (ai : Backend) (sessions : Sessions) (request : Request)
    (body v : JSVal)
    (hp : request.pathname = "/api/chat") (hm : request.method = "POST")
    (hj : request.json = some body) (hv : getProp body "message" = .ok v)
    (hmsg : truthy v = false ∨ ∃ s, v = .str s ∧ trim s = "") :
    Default.fetch ai sessions request =
      { result := .ok emptyMessageResponse, sessions := sessions, trace := [] } := by
  obtain ⟨w, hw⟩ := getProp_ok_of_ok body v "message" "sessionId" hv
  have hcall : callTrim (v.or (.str "")) = .ok (.str "") := by
    rcases hmsg with hf | ⟨s, hs, htrim⟩
    · simp [JSVal.or, hf, callTrim, trim_empty]
    · subst hs
      by_cases he : s = ""
      · subst he
        rfl
      · simp [JSVal.or, truthy_str s he, callTrim, htrim]
  unfold Default.fetch
  simp only [hp, hm, hj, api_ne_root, if_false, and_self, if_true, hw, hv, hcall]
  rfl

/-- C6 (counterexample): the JSON body `null` has no `message`, yet the edge handler does
not answer 400: the read of `body.sessionId` raises a TypeError. -/
theorem C6_null_body_counterexample :
    (Default.fetch backendHi noSessions
      { method := "POST", pathname := "/api/chat", json := some .null }).result
      = .error .typeError ∧
    statusOf (Default.fetch backendHi noSessions
      { method := "POST", pathname := "/api/chat", json := some .null }).result ≠ some 400 := by
  refine ⟨rfl, ?_⟩
  have h : statusOf (Default.fetch backendHi noSessions
      { method := "POST", pathname := "/api/chat", json := some .null }).result = none := rfl
  rw [h]
  decide

/-- C6 (amended): on `POST /api/chat` with a JSON body other than `null` whose `message`
is missing (read as `undefined`), falsy (the empty text, `null`, `false`, `0`) or a
whitespace-only text, the edge handler answers status 400 with the JSON text
`{"error":"empty message"}`, calls no Durable Object, reads and writes no storage, and
leaves every session as it was; on the JSON body `null` it raises a TypeError, again
without calling a Durable Object or touching any storage. -/
theorem C6_empty_message_rejected_at_edge (ai : Backend) (sessions : Sessions)
    (request nullRequest : Request) (body v : JSVal)
    (hp : request.pathname = "/api/chat") (hm : request.method = "POST")
    (hj : request.json = some body) (hv : getProp body "message" = .ok v)
    (hmsg : truthy v = false ∨ ∃ s, v = .str s ∧ trim s = "")
    (hp0 : nullRequest.pathname = "/api/chat") (hm0 : nullRequest.method = "POST")
    (hj0 : nullRequest.json = some .null) :
    (Default.fetch ai sessions request).result =
      .ok { body := .str "\x7b\"error\":\"empty message\"\x7d", status := 400,
            headers := [("Content-Type", "application/json")] } ∧
    (Default.fetch ai sessions request).trace = [] ∧
    getsOf (Default.fetch ai sessions request).trace = [] ∧
    putsOf (Default.fetch ai sessions request).trace = [] ∧
    (Default.fetch ai sessions request).sessions = sessions ∧
    (Default.fetch ai sessions nullRequest).result = .error .typeError ∧
    (Default.fetch ai sessions nullRequest).trace = [] ∧
    (Default.fetch ai sessions nullRequest).sessions = sessions := by
  rw [Default.fetch_empty ai sessions request body v hp hm hj hv hmsg]
  have hnull : Default.fetch ai sessions nullRequest =
      { result := .error .typeError, sessions := sessions, trace := [] } := by
    unfold Default.fetch
    simp only [hp0, hm0, hj0, api_ne_root, if_false, and_self, if_true, getProp]
  rw [hnull]
  exact ⟨rfl, rfl, rfl, rfl, rfl, rfl, rfl, rfl⟩

/-- C6 (witness): a body whose `message` is two blanks and a line feed, and the body
`null`. -/
theorem C6_empty_message_rejected_at_edge_witness :
    (getProp (.obj [("sessionId", .str "s1"), ("message", .str "  \n")]) "message"
        = .ok (.str "  \n") ∧
      (truthy (.str "  \n") = false ∨ ∃ s, JSVal.str "  \n" = .str s ∧ trim s = "")) ∧
    ((Default.fetch backendHi (fun _ => demoStorage) demoBlank).result =
      .ok { body := .str "\x7b\"error\":\"empty message\"\x7d", status := 400,
            headers := [("Content-Type", "application/json")] } ∧
    (Default.fetch backendHi (fun _ => demoStorage) demoBlank).trace = [] ∧
    getsOf (Default.fetch backendHi (fun _ => demoStorage) demoBlank).trace = [] ∧
    putsOf (Default.fetch backendHi (fun _ => demoStorage) demoBlank).trace = [] ∧
    (Default.fetch backendHi (fun _ => demoStorage) demoBlank).sessions
      = (fun _ => demoStorage) ∧
    (Default.fetch backendHi (fun _ => demoStorage) demoNull).result = .error .typeError ∧
    (Default.fetch backendHi (fun _ => demoStorage) demoNull).trace = [] ∧
    (Default.fetch backendHi (fun _ => demoStorage) demoNull).sessions
      = (fun _ => demoStorage)) :=
  ⟨⟨rfl, Or.inr ⟨"  \n", rfl, by decide⟩⟩,
    C6_empty_message_rejected_at_edge backendHi (fun _ => demoStorage) demoBlank demoNull
      (.obj [("sessionId", .str "s1"), ("message", .str "  \n")]) (.str "  \n")
      rfl rfl rfl rfl (Or.inr ⟨"  \n", rfl, by decide⟩) rfl rfl rfl⟩

theorem ChatSession.fetch_status (ai : Backend) (storage : Storage) (body : JSVal) :
    statusOf (ChatSession.fetch ai storage body).result = none ∨
    statusOf (ChatSession.fetch ai storage body).result = some 200 := by
  unfold ChatSession.fetch
  split
  · exact Or.inl rfl
  · simp only
    split
    · exact Or.inl rfl
    · split
      · exact Or.inl rfl
      · exact Or.inr rfl

theorem Default.fetch_api_status (ai : Backend) (sessions : Sessions) (request : Request)
    (hp : request.pathname = "/api/chat") (hm : request.method = "POST") :
    statusOf (Default.fetch ai sessions request).result ≠ some 404 := by
  unfold Default.fetch
  simp only [hp, hm, api_ne_root, if_false, and_self, if_true]
  split
  · simp [statusOf]
  · split
    · simp [statusOf]
    · split
      · simp [statusOf]
      · split
        · simp [statusOf]
        · split
          · simp [statusOf]
          · rcases ChatSession.fetch_status ai _ _ with h | h <;> rw [h] <;> simp

/-- C10 (counterexample): a `POST` on path `/` is neither `GET /` nor `POST /api/chat`,
and the edge handler answers it with the static page, status 200, not with a 404. -/
theorem C10_post_root_counterexample :
    (Default.fetch backendHi noSessions
      { method := "POST", pathname := "/", json := none }).result = .ok pageResponse ∧
    statusOf (Default.fetch backendHi noSessions
      { method := "POST", pathname := "/", json := none }).result = some 200 ∧
    statusOf (Default.fetch backendHi noSessions
      { method := "POST", pathname := "/", json := none }).result ≠ some 404 := by
  refine ⟨rfl, rfl, ?_⟩
  have h : statusOf (Default.fetch backendHi noSessions
      { method := "POST", pathname := "/", json := none }).result = some 200 := rfl
  rw [h]
  decide

/-- C10 (amended): the edge handler returns the static page (`text/html`, status 200) for
every request on path `/`, whatever its method; it returns 404 for every request whose
path is not `/` and that is not a `POST` on `/api/chat`; a `POST` on `/api/chat` is never
answered 404, and with an object body whose `message` trims to a non-empty text it is
handed to the `ChatSession` named by `sessionId || "default"` with the trimmed message. -/
theorem C10_edge_routing (ai : Backend) (sessions : Sessions) (root other chat : Request)
    (fields : List (String × JSVal)) (s : String)
    (hroot : root.pathname = "/")
    (hother : other.pathname ≠ "/")
    (hother2 : ¬ (other.pathname = "/api/chat" ∧ other.method = "POST"))
    (hp : chat.pathname = "/api/chat") (hm : chat.method = "POST")
    (hj : chat.json = some (.obj fields))
    (hs : lookupField "message" fields = some (.str s)) (hne : trim s ≠ "") :
    Default.fetch ai sessions root =
      { result := .ok pageResponse, sessions := sessions, trace := [] } ∧
    Default.fetch ai sessions other =
      { result := .ok notFoundResponse, sessions := sessions, trace := [] } ∧
    statusOf (Default.fetch ai sessions chat).result ≠ some 404 ∧
    Default.fetch ai sessions chat =
      { result := (ChatSession.fetch ai (sessions (idFromName (sessionIdOf fields)))
          (chatBody (sessionIdOf fields) (trim s))).result,
        sessions := sessions.set (idFromName (sessionIdOf fields))
          (ChatSession.fetch ai (sessions (idFromName (sessionIdOf fields)))
            (chatBody (sessionIdOf fields) (trim s))).storage,
        trace := .stubFetch (idFromName (sessionIdOf fields)) ::
          (ChatSession.fetch ai (sessions (idFromName (sessionIdOf fields)))
            (chatBody (sessionIdOf fields) (trim s))).trace } := by
  refine ⟨?_, ?_, Default.fetch_api_status ai sessions chat hp hm, ?_⟩
  · unfold Default.fetch
    simp only [hroot, if_true]
    rfl
  · unfold Default.fetch
    simp only [hother, hother2, if_false]
    rfl
  · rw [Default.fetch_chat ai sessions chat fields hp hm hj, hs]
    have hs0 : s ≠ "" := by
      intro h0
      apply hne
      rw [h0]
      decide
    have e1 : (JSVal.str s).or (.str "") = .str s := by
      simp [JSVal.or, truthy_str s hs0]
    have e2 : truthy (.str (trim s)) = true := truthy_str _ hne
    simp only [Option.getD_some, e1, callTrim, e2]
    rfl

/-- C10 (witness): `DELETE /`, `GET /api/chat` and `POST /api/chat` with the body
`{ sessionId: "s1", message: " hello " }`. -/
theorem C10_edge_routing_witness :
    (demoRoot.pathname = "/" ∧ demoOther.pathname ≠ "/" ∧
      ¬ (demoOther.pathname = "/api/chat" ∧ demoOther.method = "POST") ∧
      demoChat.pathname = "/api/chat" ∧ demoChat.method = "POST" ∧
      demoChat.json = some (.obj demoFields) ∧
      lookupField "message" demoFields = some (.str " hello ") ∧ trim " hello " ≠ "") ∧
    (Default.fetch backendHi noSessions demoRoot =
      { result := .ok pageResponse, sessions := noSessions, trace := [] } ∧
    Default.fetch backendHi noSessions demoOther =
      { result := .ok notFoundResponse, sessions := noSessions, trace := [] } ∧
    statusOf (Default.fetch backendHi noSessions demoChat).result ≠ some 404 ∧
    Default.fetch backendHi noSessions demoChat =
      { result := (ChatSession.fetch backendHi (noSessions (idFromName (sessionIdOf demoFields)))
          (chatBody (sessionIdOf demoFields) (trim " hello "))).result,
        sessions := noSessions.set (idFromName (sessionIdOf demoFields))
          (ChatSession.fetch backendHi (noSessions (idFromName (sessionIdOf demoFields)))
            (chatBody (sessionIdOf demoFields) (trim " hello "))).storage,
        trace := .stubFetch (idFromName (sessionIdOf demoFields)) ::
          (ChatSession.fetch backendHi (noSessions (idFromName (sessionIdOf demoFields)))
            (chatBody (sessionIdOf demoFields) (trim " hello "))).trace }) :=
  ⟨⟨rfl, by decide, by decide, rfl, rfl, rfl, rfl, by decide⟩,
    C10_edge_routing backendHi noSessions demoRoot demoOther demoChat demoFields " hello "
      rfl (by decide) (by decide) rfl rfl rfl rfl (by decide)⟩

/-! ## Session isolation -/

/-- The edge handler on a chat request that names a non-empty session id. -/
theorem Default.fetch_chatRequest (ai : Backend) (sessions : Sessions) (a m : String)
    (ha : a ≠ "") :
    Default.fetch ai sessions (chatRequest a m) =
      if trim m = "" then
        { result := .ok emptyMessageResponse, sessions := sessions, trace := [] }
      else
        { result := (ChatSession.fetch ai (sessions a) (chatBody (.str a) (trim m))).result,
          sessions := sessions.set a
            (ChatSession.fetch ai (sessions a) (chatBody (.str a) (trim m))).storage,
          trace := .stubFetch a ::
            (ChatSession.fetch ai (sessions a) (chatBody (.str a) (trim m))).trace } := by
  rw [Default.fetch_chat ai sessions (chatRequest a m)
    [("sessionId", .str a), ("message", .str m)] rfl rfl rfl]
  have hid : sessionIdOf [("sessionId", .str a), ("message", .str m)] = .str a := by
    simp [sessionIdOf, lookupField, JSVal.or, truthy_str a ha]
  have hmsg : callTrim (((lookupField "message"
      [("sessionId", JSVal.str a), ("message", JSVal.str m)]).getD .undefined).or (.str ""))
      = .ok (.str (trim m)) := by
    have hl : lookupField "message" [("sessionId", JSVal.str a), ("message", JSVal.str m)]
        = some (.str m) := by
      simp [lookupField]
    rw [hl]
    by_cases hm : m = ""
    · subst hm
      rfl
    · simp [JSVal.or, truthy_str m hm, callTrim]
  rw [hid, hmsg]
  by_cases ht : trim m = ""
  · simp [ht, truthy]
  · simp [ht, truthy, idFromName, toStr, chatBody]

theorem Sessions.set_other (sessions : Sessions) (a b : String) (storage : Storage)
    (hab : a ≠ b) : (sessions.set a storage) b = sessions b := by
  unfold Sessions.set
  rw [if_neg (fun h => hab h.symm)]

theorem Sessions.set_same (sessions : Sessions) (a : String) (storage : Storage) :
    (sessions.set a storage) a = storage := by
  unfold Sessions.set
  rw [if_pos rfl]

/-- Frame: a chat request for `a` leaves the storage of every other session as it was. -/
theorem Default.fetch_frame (ai : Backend) (sessions : Sessions) (a b m : String)
    (ha : a ≠ "") (hab : a ≠ b) :
    (Default.fetch ai sessions (chatRequest a m)).sessions b = sessions b := by
  rw [Default.fetch_chatRequest ai sessions a m ha]
  split
  · rfl
  · exact Sessions.set_other sessions a b _ hab

/-- Locality: what a chat request for `a` returns, calls and stores for `a` depends on
the storage of `a` only, not on the rest of the namespace. -/
theorem Default.fetch_local (ai : Backend) (sessions sessions' : Sessions) (a m : String)
    (ha : a ≠ "") (hagree : sessions a = sessions' a) :
    (Default.fetch ai sessions (chatRequest a m)).result =
      (Default.fetch ai sessions' (chatRequest a m)).result ∧
    (Default.fetch ai sessions (chatRequest a m)).trace =
      (Default.fetch ai sessions' (chatRequest a m)).trace ∧
    (Default.fetch ai sessions (chatRequest a m)).sessions a =
      (Default.fetch ai sessions' (chatRequest a m)).sessions a := by
  rw [Default.fetch_chatRequest ai sessions a m ha,
    Default.fetch_chatRequest ai sessions' a m ha, hagree]
  split
  · exact ⟨rfl, rfl, hagree⟩
  · exact ⟨rfl, rfl, by simp only [Sessions.set_same]⟩

theorem callsOf_cons_same (c : ChatCall) (rest : List ChatCall) :
    callsOf c.sessionId (c :: rest) = c :: callsOf c.sessionId rest := by
  simp [callsOf]

theorem callsOf_cons_other (a : String) (c : ChatCall) (rest : List ChatCall)
    (hc : c.sessionId ≠ a) : callsOf a (c :: rest) = callsOf a rest := by
  simp [callsOf, hc]

/-- Isolation over a run: session `a` ends with the same storage, and its calls show the
same results and traces, as when only the calls naming `a` are handled. -/
theorem isolation_run (a : String) (calls : List ChatCall)
    (hcalls : ∀ c ∈ calls, c.sessionId ≠ "") :
    ∀ sessions sessions' : Sessions, sessions a = sessions' a →
      sessionsAfter sessions calls a = sessionsAfter sessions' (callsOf a calls) a ∧
      observedBy a (observations sessions calls) = observations sessions' (callsOf a calls) := by
  induction calls with
  | nil =>
    intro sessions sessions' h
    exact ⟨h, rfl⟩
  | cons c rest ih =>
    intro sessions sessions' h
    have hc0 : c.sessionId ≠ "" := hcalls c (List.mem_cons_self c rest)
    have hrest : ∀ d ∈ rest, d.sessionId ≠ "" :=
      fun d hd => hcalls d (List.mem_cons_of_mem c hd)
    by_cases hc : c.sessionId = a
    · subst hc
      obtain ⟨l1, l2, l3⟩ :=
        Default.fetch_local c.ai sessions sessions' c.sessionId c.message hc0 h
      obtain ⟨i1, i2⟩ := ih hrest _ _ l3
      rw [callsOf_cons_same]
      constructor
      · simpa only [sessionsAfter] using i1
      · simp only [observations, observedBy, List.filter_cons, decide_True, if_true]
        rw [l1, l2]
        congr 1
    · have hfr : (Default.fetch c.ai sessions (chatRequest c.sessionId c.message)).sessions a
          = sessions' a := by
        rw [Default.fetch_frame c.ai sessions c.sessionId a c.message hc0 hc]
        exact h
      obtain ⟨i1, i2⟩ := ih hrest _ _ hfr
      rw [callsOf_cons_other a c rest hc]
      constructor
      · simpa only [sessionsAfter] using i1
      · simp only [observations, observedBy, List.filter_cons, hc, decide_False]
        exact i2

/-- C8 (counterexample): the session ids `""` and `"default"` are distinct, yet a message
sent with `sessionId: ""` is routed to the object named `default` and its two turns land
in the transcript of `default`. -/
theorem C8_empty_id_shares_default_counterexample :
    ("" : String) ≠ "default" ∧
    (noSessions "default").transcript.length = 0 ∧
    ((Default.fetch backendHi noSessions (chatRequest "" "hello")).sessions
      "default").transcript.length = 2 ∧
    (Default.fetch backendHi noSessions (chatRequest "" "hello")).sessions "default"
      ≠ noSessions "default" := by
  have h2 : ((Default.fetch backendHi noSessions (chatRequest "" "hello")).sessions
      "default").transcript.length = 2 := rfl
  refine ⟨by decide, rfl, h2, ?_⟩
  intro h
  rw [h] at h2
  exact absurd h2 (by decide)

/-- C8 (amended): for session ids `a ≠ b` with `a` non-empty, handling a message for `a`
leaves the storage of `b` as it was, and the result, the trace (with the prompt) and the
new storage of `a` are the same in any two namespaces that agree on `a`; in a sequence of
calls with non-empty session ids, `a` ends with the same storage and its calls show the
same results and traces as when only the calls naming `a` are handled. -/
theorem C8_session_isolation (ai : Backend) (sessions sessions' : Sessions) (a b m : String)
    (calls : List ChatCall)
    (ha : a ≠ "") (hab : a ≠ b) (hagree : sessions a = sessions' a)
    (hcalls : ∀ c ∈ calls, c.sessionId ≠ "") :
    (Default.fetch ai sessions (chatRequest a m)).sessions b = sessions b ∧
    (Default.fetch ai sessions (chatRequest a m)).result =
      (Default.fetch ai sessions' (chatRequest a m)).result ∧
    (Default.fetch ai sessions (chatRequest a m)).trace =
      (Default.fetch ai sessions' (chatRequest a m)).trace ∧
    (Default.fetch ai sessions (chatRequest a m)).sessions a =
      (Default.fetch ai sessions' (chatRequest a m)).sessions a ∧
    sessionsAfter sessions calls a = sessionsAfter sessions' (callsOf a calls) a ∧
    observedBy a (observations sessions calls) = observations sessions' (callsOf a calls) := by
  obtain ⟨l1, l2, l3⟩ := Default.fetch_local ai sessions sessions' a m ha hagree
  obtain ⟨i1, i2⟩ := isolation_run a calls hcalls sessions sessions' hagree
  exact ⟨Default.fetch_frame ai sessions a b m ha hab, l1, l2, l3, i1, i2⟩

/-- C8 (witness): sessions `s1` and `s2`, three interleaved calls, and two namespaces
that differ in the storage of `s2` only. -/
theorem C8_session_isolation_witness :
    (("s1" : String) ≠ "" ∧ ("s1" : String) ≠ "s2" ∧
      noSessions "s1" = (noSessions.set "s2" demoStorage) "s1" ∧
      ∀ c ∈ demoTraffic, c.sessionId ≠ "") ∧
    ((Default.fetch backendHi noSessions (chatRequest "s1" "hello")).sessions "s2"
      = noSessions "s2" ∧
    (Default.fetch backendHi noSessions (chatRequest "s1" "hello")).result =
      (Default.fetch backendHi (noSessions.set "s2" demoStorage)
        (chatRequest "s1" "hello")).result ∧
    (Default.fetch backendHi noSessions (chatRequest "s1" "hello")).trace =
      (Default.fetch backendHi (noSessions.set "s2" demoStorage)
        (chatRequest "s1" "hello")).trace ∧
    (Default.fetch backendHi noSessions (chatRequest "s1" "hello")).sessions "s1" =
      (Default.fetch backendHi (noSessions.set "s2" demoStorage)
        (chatRequest "s1" "hello")).sessions "s1" ∧
    sessionsAfter noSessions demoTraffic "s1" =
      sessionsAfter (noSessions.set "s2" demoStorage) (callsOf "s1" demoTraffic) "s1" ∧
    observedBy "s1" (observations noSessions demoTraffic) =
      observations (noSessions.set "s2" demoStorage) (callsOf "s1" demoTraffic)) :=
  ⟨⟨by decide, by decide, rfl, by simp [demoTraffic]⟩,
    C8_session_isolation backendHi noSessions (noSessions.set "s2" demoStorage) "s1" "s2"
      "hello" demoTraffic (by decide) (by decide) rfl (by simp [demoTraffic])⟩

/-! ## Two calls in flight on one session -/

/-- The two parts run back to back are `ChatSession.fetch`. -/
theorem ChatSession.fetch_cut (ai : Backend) (storage : Storage) (body : JSVal) :
    (match ChatSession.fetchUntilRun storage body with
      | .error e => (Except.error e, storage)
      | .ok p => ChatSession.fetchAfterRun p (ai p.req) storage) =
    ((ChatSession.fetch ai storage body).result, (ChatSession.fetch ai storage body).storage) := by
  unfold ChatSession.fetch ChatSession.fetchUntilRun ChatSession.fetchAfterRun
  cases destructure body with
  | error e => rfl
  | ok message =>
    simp only
    split
    · rfl
    · split <;> rfl

theorem fetchUntilRun_chatBody (storage : Storage) (sessionId : JSVal) (m : String) :
    ChatSession.fetchUntilRun storage (chatBody sessionId m) =
      .ok { history := storage.transcript ++ [{ role := .user, content := .str m }],
            req := { model := "@cf/meta/llama-3.1-8b-instruct",
                     prompt := buildPrompt (slice (storage.transcript ++
                       [{ role := .user, content := .str m }]) (-(MAX_TURNS : Int))),
                     max_tokens := 256 } } := by
  unfold ChatSession.fetchUntilRun
  simp only [destructure_chatBody, transcript_match]

theorem generates_chatBody (ai : Backend) (storage : Storage) (sessionId : JSVal) (m : String)
    (r : JSVal) (hg : generates ai storage (chatBody sessionId m) r) :
    ∃ result,
      ai { model := "@cf/meta/llama-3.1-8b-instruct",
           prompt := buildPrompt (slice (storage.transcript ++
             [{ role := .user, content := .str m }]) (-(MAX_TURNS : Int))),
           max_tokens := 256 } = .ok result ∧ normalizeReply result = .ok r := by
  obtain ⟨req, result, hreq, hai, hnorm⟩ := hg
  rw [fetch_aiRequests ai storage _ _ (destructure_chatBody sessionId m)] at hreq
  have hreq2 := (List.cons.inj hreq).1
  exact ⟨result, by rw [hreq2]; exact hai, hnorm⟩

theorem fetchAfterRun_of_ok (p : Pending) (settled : Except JSError JSVal) (storage : Storage)
    (result r : JSVal) (hs : settled = .ok result) (hn : normalizeReply result = .ok r) :
    ChatSession.fetchAfterRun p settled storage =
      (.ok (chatResponse r (p.history ++ [{ role := .assistant, content := r }])),
       { history := some (p.history ++ [{ role := .assistant, content := r }]) }) := by
  unfold ChatSession.fetchAfterRun
  simp only [hs, hn]

/-- A race step by step: the object after two loads and two persists. -/
theorem Race.run_four (calls : Caller → JSVal × Backend) (storage : Storage)
    (a b c d : Action) :
    Race.run calls storage [a, b, c, d] =
      Race.step calls (Race.step calls (Race.step calls (Race.step calls
        { storage := storage, pending := fun _ => none, results := [] } a) b) c) d := by
  rfl

/-- A serial schedule ends with the storage that two `ChatSession.fetch` calls, one after
the other, leave. -/
theorem Race.run_serial (sessionId : JSVal) (storage : Storage) (m1 m2 : String)
    (ai1 ai2 : Backend) :
    (Race.run (twoCalls sessionId m1 m2 ai1 ai2) storage serialSchedule).storage =
      (ChatSession.fetch ai2 (ChatSession.fetch ai1 storage (chatBody sessionId m1)).storage
        (chatBody sessionId m2)).storage ∧
    (Race.run (twoCalls sessionId m1 m2 ai1 ai2) storage serialSchedule2).storage =
      (ChatSession.fetch ai1 (ChatSession.fetch ai2 storage (chatBody sessionId m2)).storage
        (chatBody sessionId m1)).storage := by
  have c1 := ChatSession.fetch_cut ai1 storage (chatBody sessionId m1)
  have c2 := ChatSession.fetch_cut ai2
    (ChatSession.fetch ai1 storage (chatBody sessionId m1)).storage (chatBody sessionId m2)
  have d2 := ChatSession.fetch_cut ai2 storage (chatBody sessionId m2)
  have d1 := ChatSession.fetch_cut ai1
    (ChatSession.fetch ai2 storage (chatBody sessionId m2)).storage (chatBody sessionId m1)
  rw [fetchUntilRun_chatBody] at c1 c2 d1 d2
  simp only at c1 c2 d1 d2
  have s1 := congrArg Prod.snd c1
  have s2 := congrArg Prod.snd c2
  have t1 := congrArg Prod.snd d1
  have t2 := congrArg Prod.snd d2
  simp only at s1 s2 t1 t2
  constructor
  · rw [serialSchedule, Race.run_four]
    simp only [Race.step, twoCalls, fetchUntilRun_chatBody, if_true, s1, reduceCtorEq, if_false,
      s2]
  · rw [serialSchedule2, Race.run_four]
    simp only [Race.step, twoCalls, fetchUntilRun_chatBody, if_true, t2, reduceCtorEq, if_false,
      t1]

/-- When both calls load before either persists, the storage ends as the last persist
leaves it. -/
theorem Race.run_overlap (sessionId : JSVal) (storage : Storage) (m1 m2 : String)
    (ai1 ai2 : Backend) (r1 r2 : JSVal)
    (g1 : generates ai1 storage (chatBody sessionId m1) r1)
    (g2 : generates ai2 storage (chatBody sessionId m2) r2) :
    (Race.run (twoCalls sessionId m1 m2 ai1 ai2) storage overlapSchedule).storage.transcript =
      storage.transcript ++
        [{ role := .user, content := .str m2 }, { role := .assistant, content := r2 }] ∧
    (Race.run (twoCalls sessionId m1 m2 ai1 ai2) storage overlapSchedule2).storage.transcript =
      storage.transcript ++
        [{ role := .user, content := .str m1 }, { role := .assistant, content := r1 }] ∧
    (Race.run (twoCalls sessionId m1 m2 ai1 ai2) storage overlapSchedule3).storage.transcript =
      storage.transcript ++
        [{ role := .user, content := .str m2 }, { role := .assistant, content := r2 }] ∧
    (Race.run (twoCalls sessionId m1 m2 ai1 ai2) storage overlapSchedule4).storage.transcript =
      storage.transcript ++
        [{ role := .user, content := .str m1 }, { role := .assistant, content := r1 }] := by
  obtain ⟨res1, ha1, hn1⟩ := generates_chatBody ai1 storage sessionId m1 r1 g1
  obtain ⟨res2, ha2, hn2⟩ := generates_chatBody ai2 storage sessionId m2 r2 g2
  have e1 := fun (p : Pending) (st : Storage) => fetchAfterRun_of_ok p _ st res1 r1 ha1 hn1
  have e2 := fun (p : Pending) (st : Storage) => fetchAfterRun_of_ok p _ st res2 r2 ha2 hn2
  refine ⟨?_, ?_, ?_, ?_⟩
  · rw [overlapSchedule, Race.run_four]
    simp only [Race.step, twoCalls, fetchUntilRun_chatBody, if_true, reduceCtorEq, if_false,
      e1, e2]
    simp [Storage.transcript]
  · rw [overlapSchedule2, Race.run_four]
    simp only [Race.step, twoCalls, fetchUntilRun_chatBody, if_true, reduceCtorEq, if_false,
      e1, e2]
    simp [Storage.transcript]
  · rw [overlapSchedule3, Race.run_four]
    simp only [Race.step, twoCalls, fetchUntilRun_chatBody, if_true, reduceCtorEq, if_false,
      e1, e2]
    simp [Storage.transcript]
  · rw [overlapSchedule4, Race.run_four]
    simp only [Race.step, twoCalls, fetchUntilRun_chatBody, if_true, reduceCtorEq, if_false,
      e1, e2]
    simp [Storage.transcript]

/-- When both calls load before either persists, both end with status 200, in the order
in which they persist. -/
theorem Race.run_overlap_results (sessionId : JSVal) (storage : Storage) (m1 m2 : String)
    (ai1 ai2 : Backend) (r1 r2 : JSVal)
    (g1 : generates ai1 storage (chatBody sessionId m1) r1)
    (g2 : generates ai2 storage (chatBody sessionId m2) r2) :
    (Race.run (twoCalls sessionId m1 m2 ai1 ai2) storage overlapSchedule).results.map
        (fun x => (x.1, statusOf x.2)) = [(Caller.first, some 200), (Caller.second, some 200)] ∧
    (Race.run (twoCalls sessionId m1 m2 ai1 ai2) storage overlapSchedule2).results.map
        (fun x => (x.1, statusOf x.2)) = [(Caller.second, some 200), (Caller.first, some 200)] ∧
    (Race.run (twoCalls sessionId m1 m2 ai1 ai2) storage overlapSchedule3).results.map
        (fun x => (x.1, statusOf x.2)) = [(Caller.first, some 200), (Caller.second, some 200)] ∧
    (Race.run (twoCalls sessionId m1 m2 ai1 ai2) storage overlapSchedule4).results.map
        (fun x => (x.1, statusOf x.2)) = [(Caller.second, some 200), (Caller.first, some 200)] := by
  obtain ⟨res1, ha1, hn1⟩ := generates_chatBody ai1 storage sessionId m1 r1 g1
  obtain ⟨res2, ha2, hn2⟩ := generates_chatBody ai2 storage sessionId m2 r2 g2
  have e1 := fun (p : Pending) (st : Storage) => fetchAfterRun_of_ok p _ st res1 r1 ha1 hn1
  have e2 := fun (p : Pending) (st : Storage) => fetchAfterRun_of_ok p _ st res2 r2 ha2 hn2
  refine ⟨?_, ?_, ?_, ?_⟩
  · rw [overlapSchedule, Race.run_four]
    simp only [Race.step, twoCalls, fetchUntilRun_chatBody, if_true, reduceCtorEq, if_false,
      e1, e2]
    rfl
  · rw [overlapSchedule2, Race.run_four]
    simp only [Race.step, twoCalls, fetchUntilRun_chatBody, if_true, reduceCtorEq, if_false,
      e1, e2]
    rfl
  · rw [overlapSchedule3, Race.run_four]
    simp only [Race.step, twoCalls, fetchUntilRun_chatBody, if_true, reduceCtorEq, if_false,
      e1, e2]
    rfl
  · rw [overlapSchedule4, Race.run_four]
    simp only [Race.step, twoCalls, fetchUntilRun_chatBody, if_true, reduceCtorEq, if_false,
      e1, e2]
    rfl

/-- C9 (counterexample): two calls `hello` and `more` on a session without history, both
answered by the backend; both load before either persists, both end with status 200, and
the persisted transcript holds the 2 turns of `more` only, not 4. -/
theorem C9_lost_update_counterexample :
    (Race.run (twoCalls (.str "s1") "hello" "more" backendHi backendYo) { history := none }
      overlapSchedule).storage.transcript =
      [{ role := .user, content := .str "more" }, { role := .assistant, content := .str "yo" }] ∧
    (Race.run (twoCalls (.str "s1") "hello" "more" backendHi backendYo) { history := none }
      overlapSchedule).storage.transcript.length = 2 ∧
    (Race.run (twoCalls (.str "s1") "hello" "more" backendHi backendYo) { history := none }
      overlapSchedule).storage.transcript.length ≠ 4 ∧
    (Race.run (twoCalls (.str "s1") "hello" "more" backendHi backendYo) { history := none }
      overlapSchedule).results.map (fun x => (x.1, statusOf x.2)) =
      [(Caller.first, some 200), (Caller.second, some 200)] := by
  have h2 : (Race.run (twoCalls (.str "s1") "hello" "more" backendHi backendYo)
      { history := none } overlapSchedule).storage.transcript.length = 2 := rfl
  refine ⟨rfl, h2, ?_, rfl⟩
  rw [h2]
  decide

/-- C9 (amended): for two calls on one session whose generation calls succeed, when one
call ends before the other loads (either order), the storage is the one two
`ChatSession.fetch` calls in a row leave and the persisted transcript gains both user
turns and both assistant turns, 4 entries; the source holds no lock across the await of
the backend, and when both calls load before either persists (any of the four orders),
both end with status 200 and the persisted transcript gains only the 2 turns of the call
that persists last. -/
theorem C9_serial_keeps_both_overlap_keeps_last (sessionId : JSVal) (storage : Storage)
    (m1 m2 : String) (ai1 ai2 : Backend) (r1 r2 r1s r2s : JSVal)
    (g1 : generates ai1 storage (chatBody sessionId m1) r1)
    (g2 : generates ai2 storage (chatBody sessionId m2) r2)
    (g2s : generates ai2 (ChatSession.fetch ai1 storage (chatBody sessionId m1)).storage
      (chatBody sessionId m2) r2s)
    (g1s : generates ai1 (ChatSession.fetch ai2 storage (chatBody sessionId m2)).storage
      (chatBody sessionId m1) r1s) :
    ((Race.run (twoCalls sessionId m1 m2 ai1 ai2) storage serialSchedule).storage =
      (ChatSession.fetch ai2 (ChatSession.fetch ai1 storage (chatBody sessionId m1)).storage
        (chatBody sessionId m2)).storage ∧
     (Race.run (twoCalls sessionId m1 m2 ai1 ai2) storage serialSchedule2).storage =
      (ChatSession.fetch ai1 (ChatSession.fetch ai2 storage (chatBody sessionId m2)).storage
        (chatBody sessionId m1)).storage) ∧
    ((Race.run (twoCalls sessionId m1 m2 ai1 ai2) storage serialSchedule).storage.transcript =
      storage.transcript ++
        [{ role := .user, content := .str m1 }, { role := .assistant, content := r1 },
         { role := .user, content := .str m2 }, { role := .assistant, content := r2s }] ∧
     (Race.run (twoCalls sessionId m1 m2 ai1 ai2) storage serialSchedule2).storage.transcript =
      storage.transcript ++
        [{ role := .user, content := .str m2 }, { role := .assistant, content := r2 },
         { role := .user, content := .str m1 }, { role := .assistant, content := r1s }]) ∧
    ((Race.run (twoCalls sessionId m1 m2 ai1 ai2) storage
        serialSchedule).storage.transcript.length = storage.transcript.length + 4 ∧
     (Race.run (twoCalls sessionId m1 m2 ai1 ai2) storage
        serialSchedule2).storage.transcript.length = storage.transcript.length + 4) ∧
    ((Race.run (twoCalls sessionId m1 m2 ai1 ai2) storage overlapSchedule).storage.transcript =
      storage.transcript ++
        [{ role := .user, content := .str m2 }, { role := .assistant, content := r2 }] ∧
     (Race.run (twoCalls sessionId m1 m2 ai1 ai2) storage overlapSchedule2).storage.transcript =
      storage.transcript ++
        [{ role := .user, content := .str m1 }, { role := .assistant, content := r1 }] ∧
     (Race.run (twoCalls sessionId m1 m2 ai1 ai2) storage overlapSchedule3).storage.transcript =
      storage.transcript ++
        [{ role := .user, content := .str m2 }, { role := .assistant, content := r2 }] ∧
     (Race.run (twoCalls sessionId m1 m2 ai1 ai2) storage overlapSchedule4).storage.transcript =
      storage.transcript ++
        [{ role := .user, content := .str m1 }, { role := .assistant, content := r1 }]) ∧
    ((Race.run (twoCalls sessionId m1 m2 ai1 ai2) storage
        overlapSchedule).storage.transcript.length = storage.transcript.length + 2 ∧
     (Race.run (twoCalls sessionId m1 m2 ai1 ai2) storage
        overlapSchedule2).storage.transcript.length = storage.transcript.length + 2 ∧
     (Race.run (twoCalls sessionId m1 m2 ai1 ai2) storage
        overlapSchedule3).storage.transcript.length = storage.transcript.length + 2 ∧
     (Race.run (twoCalls sessionId m1 m2 ai1 ai2) storage
        overlapSchedule4).storage.transcript.length = storage.transcript.length + 2) ∧
    ((Race.run (twoCalls sessionId m1 m2 ai1 ai2) storage overlapSchedule).results.map
        (fun x => (x.1, statusOf x.2)) = [(Caller.first, some 200), (Caller.second, some 200)] ∧
     (Race.run (twoCalls sessionId m1 m2 ai1 ai2) storage overlapSchedule2).results.map
        (fun x => (x.1, statusOf x.2)) = [(Caller.second, some 200), (Caller.first, some 200)] ∧
     (Race.run (twoCalls sessionId m1 m2 ai1 ai2) storage overlapSchedule3).results.map
        (fun x => (x.1, statusOf x.2)) = [(Caller.first, some 200), (Caller.second, some 200)] ∧
     (Race.run (twoCalls sessionId m1 m2 ai1 ai2) storage overlapSchedule4).results.map
        (fun x => (x.1, statusOf x.2)) =
          [(Caller.second, some 200), (Caller.first, some 200)]) := by
  obtain ⟨o1, o2, o3, o4⟩ := Race.run_overlap sessionId storage m1 m2 ai1 ai2 r1 r2 g1 g2
  have ores := Race.run_overlap_results sessionId storage m1 m2 ai1 ai2 r1 r2 g1 g2
  obtain ⟨sa, sb⟩ := Race.run_serial sessionId storage m1 m2 ai1 ai2
  obtain ⟨q1, f1⟩ := fetch_of_generates ai1 storage (chatBody sessionId m1) (.str m1) r1
    (destructure_chatBody sessionId m1) g1
  obtain ⟨q2, f2⟩ := fetch_of_generates ai2 _ (chatBody sessionId m2) (.str m2) r2s
    (destructure_chatBody sessionId m2) g2s
  obtain ⟨q3, f3⟩ := fetch_of_generates ai2 storage (chatBody sessionId m2) (.str m2) r2
    (destructure_chatBody sessionId m2) g2
  obtain ⟨q4, f4⟩ := fetch_of_generates ai1 _ (chatBody sessionId m1) (.str m1) r1s
    (destructure_chatBody sessionId m1) g1s
  have hs : (Race.run (twoCalls sessionId m1 m2 ai1 ai2) storage
      serialSchedule).storage.transcript =
      storage.transcript ++
        [{ role := .user, content := .str m1 }, { role := .assistant, content := r1 },
         { role := .user, content := .str m2 }, { role := .assistant, content := r2s }] := by
    rw [sa, f2, f1]
    simp [Storage.transcript]
  have hs2 : (Race.run (twoCalls sessionId m1 m2 ai1 ai2) storage
      serialSchedule2).storage.transcript =
      storage.transcript ++
        [{ role := .user, content := .str m2 }, { role := .assistant, content := r2 },
         { role := .user, content := .str m1 }, { role := .assistant, content := r1s }] := by
    rw [sb, f4, f3]
    simp [Storage.transcript]
  refine ⟨⟨sa, sb⟩, ⟨hs, hs2⟩, ⟨?_, ?_⟩, ⟨o1, o2, o3, o4⟩, ⟨?_, ?_, ?_, ?_⟩, ores⟩
  · rw [hs]
    simp
  · rw [hs2]
    simp
  · rw [o1]
    simp
  · rw [o2]
    simp
  · rw [o3]
    simp
  · rw [o4]
    simp

/-- C9 (witness): `hello` answered `hi` and `more` answered `yo` on a session without
history. -/
theorem C9_serial_keeps_both_overlap_keeps_last_witness :
    (generates backendHi { history := none } (chatBody (.str "s1") "hello") (.str "hi") ∧
      generates backendYo { history := none } (chatBody (.str "s1") "more") (.str "yo") ∧
      generates backendYo
        (ChatSession.fetch backendHi { history := none } (chatBody (.str "s1") "hello")).storage
        (chatBody (.str "s1") "more") (.str "yo") ∧
      generates backendHi
        (ChatSession.fetch backendYo { history := none } (chatBody (.str "s1") "more")).storage
        (chatBody (.str "s1") "hello") (.str "hi")) ∧
    ((Race.run (twoCalls (.str "s1") "hello" "more" backendHi backendYo) { history := none }
        serialSchedule).storage.transcript.length = 0 + 4 ∧
     (Race.run (twoCalls (.str "s1") "hello" "more" backendHi backendYo) { history := none }
        serialSchedule2).storage.transcript.length = 0 + 4) ∧
    ((Race.run (twoCalls (.str "s1") "hello" "more" backendHi backendYo) { history := none }
        overlapSchedule).storage.transcript.length = 0 + 2 ∧
     (Race.run (twoCalls (.str "s1") "hello" "more" backendHi backendYo) { history := none }
        overlapSchedule2).storage.transcript.length = 0 + 2 ∧
     (Race.run (twoCalls (.str "s1") "hello" "more" backendHi backendYo) { history := none }
        overlapSchedule3).storage.transcript.length = 0 + 2 ∧
     (Race.run (twoCalls (.str "s1") "hello" "more" backendHi backendYo) { history := none }
        overlapSchedule4).storage.transcript.length = 0 + 2) :=
  have h := C9_serial_keeps_both_overlap_keeps_last (.str "s1") { history := none }
    "hello" "more" backendHi backendYo (.str "hi") (.str "yo") (.str "hi") (.str "yo")
    ⟨_, _, rfl, rfl, rfl⟩ ⟨_, _, rfl, rfl, rfl⟩ ⟨_, _, rfl, rfl, rfl⟩ ⟨_, _, rfl, rfl, rfl⟩
  ⟨⟨⟨_, _, rfl, rfl, rfl⟩, ⟨_, _, rfl, rfl, rfl⟩, ⟨_, _, rfl, rfl, rfl⟩, ⟨_, _, rfl, rfl, rfl⟩⟩,
    h.2.2.1, h.2.2.2.2.1⟩

end CloudflareLlmChat
